import Mathlib

/-!
# GVT-g OpRegion emulation (`drivers/gpu/drm/i915/gvt/opregion.c`)

A shallow embedding of the virtual VBT builder, the host OpRegion buffer
(initialisation and release), the per-vGPU attach and detach paths and the
SWSCI request handler, together with the properties proved about them.

Memory is byte addressed (`Mem`), multi-byte scalars are little endian.
Declarations that `opregion.c` takes from headers (`intel_vbt_defs.h`,
`gvt.h`, `reg.h`) are parameters of the development: `VbtDefs` for the VBT
structure layouts and identifiers, `GvtDefs` for the OpRegion register
offsets, masks and SWSCI bits.
-/

namespace Opregion

/-! ## Byte-addressed memory -/

/-- Byte-addressed memory: address (or offset inside an object) to byte. -/
abbrev Mem := Nat → Nat

/-- Store the bytes `bs` at consecutive addresses starting at `a`. -/
def wbytes (m : Mem) (a : Nat) (bs : List Nat) : Mem :=
  fun i => if a ≤ i ∧ i < a + bs.length then bs.getD (i - a) 0 else m i

/-- Load `n` consecutive bytes starting at `a`; a memory cell is read as
an 8-bit quantity. -/
def rbytes (m : Mem) (a : Nat) : Nat → List Nat
  | 0 => []
  | n + 1 => m a % 256 :: rbytes m (a + 1) n

/-- Little-endian object representation of `v` truncated to `w` bytes. -/
def le_bytes : Nat → Nat → List Nat
  | 0, _ => []
  | w + 1, v => v % 256 :: le_bytes w (v / 256)

/-- Value of a little-endian byte string. -/
def le_val : List Nat → Nat
  | [] => 0
  | b :: bs => b + 256 * le_val bs

/-- Assignment to a `w`-byte unsigned scalar at address `a`. -/
def store (m : Mem) (a w v : Nat) : Mem := wbytes m a (le_bytes w v)

/-- Read of a `w`-byte unsigned scalar at address `a`. -/
def load (m : Mem) (a w : Nat) : Nat := le_val (rbytes m a w)

/-- `memset(a, c, n)`. -/
def memset (m : Mem) (a c n : Nat) : Mem := wbytes m a (List.replicate n (c % 256))

/-- `strcpy(a, s)`: the characters of `s` followed by the terminating NUL. -/
def strcpy (m : Mem) (a : Nat) (s : String) : Mem :=
  wbytes m a (s.toList.map Char.toNat ++ [0])

/-- `memcpy(dst, src, n)` between two objects. -/
def memcpy (dst : Mem) (d : Nat) (src : Mem) (s n : Nat) : Mem :=
  wbytes dst d (rbytes src s n)

/-! ## Layout descriptions -/

/-- A scalar or array member of a packed structure: byte offset and size. -/
structure Field where
  off : Nat
  size : Nat
deriving DecidableEq, Repr

/-- A bit-field member stored inside one byte of a packed structure. -/
structure BitField where
  byte : Nat
  shift : Nat
  bits : Nat
deriving DecidableEq, Repr

/-- Assignment to a bit-field: read the byte, replace the member's bits. -/
def wbits (m : Mem) (a : Nat) (f : BitField) (v : Nat) : Mem :=
  let old := m (a + f.byte)
  let cur := old / 2 ^ f.shift % 2 ^ f.bits
  store m (a + f.byte) 1 (old - cur * 2 ^ f.shift + v % 2 ^ f.bits * 2 ^ f.shift)

/-- Read of a bit-field. -/
def rbits (m : Mem) (a : Nat) (f : BitField) : Nat :=
  m (a + f.byte) / 2 ^ f.shift % 2 ^ f.bits

/-- The two members occupy disjoint byte ranges. -/
def Field.disj (f g : Field) : Prop :=
  f.off + f.size ≤ g.off ∨ g.off + g.size ≤ f.off

instance (f g : Field) : Decidable (f.disj g) := by
  unfold Field.disj; infer_instance

/-- The member lies inside a structure of `n` bytes. -/
def Field.within (f : Field) (n : Nat) : Prop := f.off + f.size ≤ n

instance (f : Field) (n : Nat) : Decidable (f.within n) := by
  unfold Field.within; infer_instance

/-- The bit-field lies inside one byte of a structure of `n` bytes. -/
def BitField.within (f : BitField) (n : Nat) : Prop :=
  f.byte < n ∧ f.shift + f.bits ≤ 8

instance (f : BitField) (n : Nat) : Decidable (f.within n) := by
  unfold BitField.within; infer_instance

/-- What `opregion.c` uses from `intel_vbt_defs.h`: the sizes of the packed
VBT structures, the placement of the members assigned by
`virt_vbt_generation`, and the identifiers it stores. -/
structure VbtDefs where
  /-- `sizeof(struct vbt_header)` -/
  sizeof_vbt_header : Nat
  vbt_header_signature : Field
  vbt_header_version : Field
  vbt_header_header_size : Field
  vbt_header_vbt_size : Field
  vbt_header_bdb_offset : Field
  /-- `sizeof(struct bdb_header)` -/
  sizeof_bdb_header : Nat
  bdb_header_signature : Field
  bdb_header_version : Field
  bdb_header_header_size : Field
  bdb_header_bdb_size : Field
  /-- `sizeof(struct bdb_general_features)` -/
  sizeof_bdb_general_features : Nat
  int_crt_support : BitField
  int_tv_support : BitField
  /-- `sizeof(struct bdb_general_definitions)` -/
  sizeof_bdb_general_definitions : Nat
  child_dev_size : Field
  /-- `sizeof(struct child_device_config)` -/
  sizeof_child_device_config : Nat
  handle : Field
  device_type : Field
  dvo_port : Field
  aux_channel : Field
  /-- `sizeof(struct bdb_driver_features)` -/
  sizeof_bdb_driver_features : Nat
  lvds_config : BitField
  BDB_GENERAL_FEATURES : Nat
  BDB_GENERAL_DEFINITIONS : Nat
  BDB_DRIVER_FEATURES : Nat
  BDB_DRIVER_FEATURE_NO_LVDS : Nat
  DEVICE_TYPE_DP : Nat
  DVO_PORT_DPA : Nat
  DVO_PORT_DPB : Nat
  DVO_PORT_DPC : Nat
  DVO_PORT_DPD : Nat
  DP_AUX_A : Nat
  DP_AUX_B : Nat
  DP_AUX_C : Nat
  DP_AUX_D : Nat

/-! ## Constants and structures defined in `opregion.c` -/

def OPREGION_SIGNATURE : String := "IntelGraphicsMem"
def MBOX_VBT : Nat := 1 <<< 3

def DEVICE_TYPE_CRT : Nat := 0x01
def DEVICE_TYPE_EFP1 : Nat := 0x04
def DEVICE_TYPE_EFP2 : Nat := 0x40
def DEVICE_TYPE_EFP3 : Nat := 0x20
def DEVICE_TYPE_EFP4 : Nat := 0x10

def DEV_SIZE : Nat := 38

/-- `struct bdb_data_header { u8 id; u16 size; } __packed`. -/
def sizeof_bdb_data_header : Nat := 3
def bdb_data_header_id : Field := ⟨0, 1⟩
def bdb_data_header_size : Field := ⟨1, 2⟩

/-! ### `struct vbt`: member offsets

Every member is a packed structure, so the members follow one another
without padding. -/

namespace vbt
variable (L : VbtDefs)

def header : Nat := 0
def bdb_header : Nat := header + L.sizeof_vbt_header
def general_features_header : Nat := bdb_header L + L.sizeof_bdb_header
def general_features : Nat := general_features_header L + sizeof_bdb_data_header
def general_definitions_header : Nat :=
  general_features L + L.sizeof_bdb_general_features
def general_definitions : Nat := general_definitions_header L + sizeof_bdb_data_header
def child0 : Nat := general_definitions L + L.sizeof_bdb_general_definitions
def child1 : Nat := child0 L + L.sizeof_child_device_config
def child2 : Nat := child1 L + L.sizeof_child_device_config
def child3 : Nat := child2 L + L.sizeof_child_device_config
def driver_features_header : Nat := child3 L + L.sizeof_child_device_config
def driver_features : Nat := driver_features_header L + sizeof_bdb_data_header
/-- `sizeof(struct vbt)` -/
def sizeof : Nat := driver_features L + L.sizeof_bdb_driver_features

end vbt

/-- `static void virt_vbt_generation(struct vbt *v)`, acting on the object
representation of `*v`. -/
def virt_vbt_generation (L : VbtDefs) (v : Mem) : Mem :=
  let num_child := 4
  let v := memset v 0 0 (vbt.sizeof L)
  let v := store v (vbt.header + L.vbt_header_signature.off + 0) 1 '$'.toNat
  let v := store v (vbt.header + L.vbt_header_signature.off + 1) 1 'V'.toNat
  let v := store v (vbt.header + L.vbt_header_signature.off + 2) 1 'B'.toNat
  let v := store v (vbt.header + L.vbt_header_signature.off + 3) 1 'T'.toNat
  let v := store v (vbt.header + L.vbt_header_version.off) L.vbt_header_version.size 155
  let v := store v (vbt.header + L.vbt_header_header_size.off)
    L.vbt_header_header_size.size L.sizeof_vbt_header
  let v := store v (vbt.header + L.vbt_header_vbt_size.off)
    L.vbt_header_vbt_size.size (vbt.sizeof L - L.sizeof_vbt_header)
  let v := store v (vbt.header + L.vbt_header_bdb_offset.off)
    L.vbt_header_bdb_offset.size (vbt.bdb_header L)
  let v := strcpy v (vbt.bdb_header L + L.bdb_header_signature.off) "BIOS_DATA_BLOCK"
  let v := store v (vbt.bdb_header L + L.bdb_header_version.off)
    L.bdb_header_version.size 198
  let v := store v (vbt.bdb_header L + L.bdb_header_header_size.off)
    L.bdb_header_header_size.size L.sizeof_bdb_header
  let v := store v (vbt.bdb_header L + L.bdb_header_bdb_size.off)
    L.bdb_header_bdb_size.size
    (vbt.sizeof L - L.sizeof_vbt_header - L.sizeof_bdb_header)
  -- general features
  let v := store v (vbt.general_features_header L + bdb_data_header_id.off)
    bdb_data_header_id.size L.BDB_GENERAL_FEATURES
  let v := store v (vbt.general_features_header L + bdb_data_header_size.off)
    bdb_data_header_size.size L.sizeof_bdb_general_features
  let v := wbits v (vbt.general_features L) L.int_crt_support 0
  let v := wbits v (vbt.general_features L) L.int_tv_support 0
  -- child device
  let v := store v (vbt.general_definitions_header L + bdb_data_header_id.off)
    bdb_data_header_id.size L.BDB_GENERAL_DEFINITIONS
  let v := store v (vbt.general_definitions_header L + bdb_data_header_size.off)
    bdb_data_header_size.size (L.sizeof_bdb_general_definitions + num_child * DEV_SIZE)
  let v := store v (vbt.general_definitions L + L.child_dev_size.off)
    L.child_dev_size.size DEV_SIZE
  -- portA
  let v := store v (vbt.child0 L + L.handle.off) L.handle.size DEVICE_TYPE_EFP1
  let v := store v (vbt.child0 L + L.device_type.off) L.device_type.size L.DEVICE_TYPE_DP
  let v := store v (vbt.child0 L + L.dvo_port.off) L.dvo_port.size L.DVO_PORT_DPA
  let v := store v (vbt.child0 L + L.aux_channel.off) L.aux_channel.size L.DP_AUX_A
  -- portB
  let v := store v (vbt.child1 L + L.handle.off) L.handle.size DEVICE_TYPE_EFP2
  let v := store v (vbt.child1 L + L.device_type.off) L.device_type.size L.DEVICE_TYPE_DP
  let v := store v (vbt.child1 L + L.dvo_port.off) L.dvo_port.size L.DVO_PORT_DPB
  let v := store v (vbt.child1 L + L.aux_channel.off) L.aux_channel.size L.DP_AUX_B
  -- portC
  let v := store v (vbt.child2 L + L.handle.off) L.handle.size DEVICE_TYPE_EFP3
  let v := store v (vbt.child2 L + L.device_type.off) L.device_type.size L.DEVICE_TYPE_DP
  let v := store v (vbt.child2 L + L.dvo_port.off) L.dvo_port.size L.DVO_PORT_DPC
  let v := store v (vbt.child2 L + L.aux_channel.off) L.aux_channel.size L.DP_AUX_C
  -- portD
  let v := store v (vbt.child3 L + L.handle.off) L.handle.size DEVICE_TYPE_EFP4
  let v := store v (vbt.child3 L + L.device_type.off) L.device_type.size L.DEVICE_TYPE_DP
  let v := store v (vbt.child3 L + L.dvo_port.off) L.dvo_port.size L.DVO_PORT_DPD
  let v := store v (vbt.child3 L + L.aux_channel.off) L.aux_channel.size L.DP_AUX_D
  -- driver features
  let v := store v (vbt.driver_features_header L + bdb_data_header_id.off)
    bdb_data_header_id.size L.BDB_DRIVER_FEATURES
  let v := store v (vbt.driver_features_header L + bdb_data_header_size.off)
    bdb_data_header_size.size L.sizeof_bdb_driver_features
  wbits v (vbt.driver_features L) L.lvds_config L.BDB_DRIVER_FEATURE_NO_LVDS

/-- The bytes of the generated `struct vbt`. -/
def vbt_blob (L : VbtDefs) (v : Mem) : List Nat :=
  rbytes (virt_vbt_generation L v) 0 (vbt.sizeof L)

/-- A layout instance for BDB version 198 with 38-byte child device
records, used to evaluate the builder on concrete data. -/
def vbt198 : VbtDefs where
  sizeof_vbt_header := 48
  vbt_header_signature := ⟨0, 20⟩
  vbt_header_version := ⟨20, 2⟩
  vbt_header_header_size := ⟨22, 2⟩
  vbt_header_vbt_size := ⟨24, 2⟩
  vbt_header_bdb_offset := ⟨28, 4⟩
  sizeof_bdb_header := 22
  bdb_header_signature := ⟨0, 16⟩
  bdb_header_version := ⟨16, 2⟩
  bdb_header_header_size := ⟨18, 2⟩
  bdb_header_bdb_size := ⟨20, 2⟩
  sizeof_bdb_general_features := 5
  int_crt_support := ⟨3, 0, 1⟩
  int_tv_support := ⟨3, 1, 1⟩
  sizeof_bdb_general_definitions := 5
  child_dev_size := ⟨4, 1⟩
  sizeof_child_device_config := 38
  handle := ⟨0, 2⟩
  device_type := ⟨2, 2⟩
  dvo_port := ⟨16, 1⟩
  aux_channel := ⟨25, 1⟩
  sizeof_bdb_driver_features := 22
  lvds_config := ⟨8, 3, 2⟩
  BDB_GENERAL_FEATURES := 1
  BDB_GENERAL_DEFINITIONS := 2
  BDB_DRIVER_FEATURES := 12
  BDB_DRIVER_FEATURE_NO_LVDS := 0
  DEVICE_TYPE_DP := 0x68C6
  DVO_PORT_DPA := 10
  DVO_PORT_DPB := 7
  DVO_PORT_DPC := 8
  DVO_PORT_DPD := 9
  DP_AUX_A := 0x40
  DP_AUX_B := 0x10
  DP_AUX_C := 0x20
  DP_AUX_D := 0x30

/-- Member `f` ends before member `g` starts. -/
def Field.before (f g : Field) : Prop := f.off + f.size ≤ g.off

instance (f g : Field) : Decidable (f.before g) := by
  unfold Field.before; infer_instance

/-- A `w`-byte unsigned member holds `v` without truncation. -/
def fits (v : Nat) (f : Field) : Prop := v < 256 ^ f.size

instance (v : Nat) (f : Field) : Decidable (fits v f) := by
  unfold fits; infer_instance

/-- Well-formedness of a header description: in every structure the members
assigned by `virt_vbt_generation` are declared in the order in which it
assigns them and lie inside the structure, the arrays are large enough for
what is stored in them, and every stored value is representable in its
member. -/
def VbtDefs.WF (L : VbtDefs) : Prop :=
  -- struct vbt_header
  (4 ≤ L.vbt_header_signature.size ∧
   L.vbt_header_signature.before L.vbt_header_version ∧
   L.vbt_header_version.before L.vbt_header_header_size ∧
   L.vbt_header_header_size.before L.vbt_header_vbt_size ∧
   L.vbt_header_vbt_size.before L.vbt_header_bdb_offset ∧
   L.vbt_header_bdb_offset.within L.sizeof_vbt_header) ∧
  -- struct bdb_header
  (16 ≤ L.bdb_header_signature.size ∧
   L.bdb_header_signature.before L.bdb_header_version ∧
   L.bdb_header_version.before L.bdb_header_header_size ∧
   L.bdb_header_header_size.before L.bdb_header_bdb_size ∧
   L.bdb_header_bdb_size.within L.sizeof_bdb_header) ∧
  -- struct bdb_general_features, bdb_general_definitions, bdb_driver_features
  (L.int_crt_support.within L.sizeof_bdb_general_features ∧
   L.int_tv_support.within L.sizeof_bdb_general_features ∧
   L.child_dev_size.within L.sizeof_bdb_general_definitions ∧
   L.lvds_config.within L.sizeof_bdb_driver_features) ∧
  -- struct child_device_config
  (L.handle.before L.device_type ∧
   L.device_type.before L.dvo_port ∧
   L.dvo_port.before L.aux_channel ∧
   L.aux_channel.within L.sizeof_child_device_config) ∧
  -- stored values are representable
  (fits 155 L.vbt_header_version ∧
   fits L.sizeof_vbt_header L.vbt_header_header_size ∧
   fits (vbt.sizeof L - L.sizeof_vbt_header) L.vbt_header_vbt_size ∧
   fits (vbt.bdb_header L) L.vbt_header_bdb_offset ∧
   fits 198 L.bdb_header_version ∧
   fits L.sizeof_bdb_header L.bdb_header_header_size ∧
   fits (vbt.sizeof L - L.sizeof_vbt_header - L.sizeof_bdb_header) L.bdb_header_bdb_size ∧
   fits L.BDB_GENERAL_FEATURES bdb_data_header_id ∧
   fits L.sizeof_bdb_general_features bdb_data_header_size ∧
   fits L.BDB_GENERAL_DEFINITIONS bdb_data_header_id ∧
   fits (L.sizeof_bdb_general_definitions + 4 * DEV_SIZE) bdb_data_header_size ∧
   fits DEV_SIZE L.child_dev_size ∧
   fits L.BDB_DRIVER_FEATURES bdb_data_header_id ∧
   fits L.sizeof_bdb_driver_features bdb_data_header_size) ∧
  (fits DEVICE_TYPE_EFP2 L.handle ∧
   fits L.DEVICE_TYPE_DP L.device_type ∧
   fits L.DVO_PORT_DPA L.dvo_port ∧ fits L.DVO_PORT_DPB L.dvo_port ∧
   fits L.DVO_PORT_DPC L.dvo_port ∧ fits L.DVO_PORT_DPD L.dvo_port ∧
   fits L.DP_AUX_A L.aux_channel ∧ fits L.DP_AUX_B L.aux_channel ∧
   fits L.DP_AUX_C L.aux_channel ∧ fits L.DP_AUX_D L.aux_channel)

instance (L : VbtDefs) : Decidable L.WF := by
  unfold VbtDefs.WF; infer_instance

/-- The scalar members assigned by `virt_vbt_generation`: address inside
`struct vbt`, size in bytes, assigned value. -/
def vbt_fields (L : VbtDefs) : List (Nat × Nat × Nat) :=
  [ (vbt.header + L.vbt_header_signature.off + 0, 1, '$'.toNat),
    (vbt.header + L.vbt_header_signature.off + 1, 1, 'V'.toNat),
    (vbt.header + L.vbt_header_signature.off + 2, 1, 'B'.toNat),
    (vbt.header + L.vbt_header_signature.off + 3, 1, 'T'.toNat),
    (vbt.header + L.vbt_header_version.off, L.vbt_header_version.size, 155),
    (vbt.header + L.vbt_header_header_size.off, L.vbt_header_header_size.size,
      L.sizeof_vbt_header),
    (vbt.header + L.vbt_header_vbt_size.off, L.vbt_header_vbt_size.size,
      vbt.sizeof L - L.sizeof_vbt_header),
    (vbt.header + L.vbt_header_bdb_offset.off, L.vbt_header_bdb_offset.size,
      vbt.bdb_header L),
    (vbt.bdb_header L + L.bdb_header_version.off, L.bdb_header_version.size, 198),
    (vbt.bdb_header L + L.bdb_header_header_size.off, L.bdb_header_header_size.size,
      L.sizeof_bdb_header),
    (vbt.bdb_header L + L.bdb_header_bdb_size.off, L.bdb_header_bdb_size.size,
      vbt.sizeof L - L.sizeof_vbt_header - L.sizeof_bdb_header),
    (vbt.general_features_header L + bdb_data_header_id.off, bdb_data_header_id.size,
      L.BDB_GENERAL_FEATURES),
    (vbt.general_features_header L + bdb_data_header_size.off, bdb_data_header_size.size,
      L.sizeof_bdb_general_features),
    (vbt.general_definitions_header L + bdb_data_header_id.off, bdb_data_header_id.size,
      L.BDB_GENERAL_DEFINITIONS),
    (vbt.general_definitions_header L + bdb_data_header_size.off, bdb_data_header_size.size,
      L.sizeof_bdb_general_definitions + 4 * DEV_SIZE),
    (vbt.general_definitions L + L.child_dev_size.off, L.child_dev_size.size, DEV_SIZE),
    (vbt.child0 L + L.handle.off, L.handle.size, DEVICE_TYPE_EFP1),
    (vbt.child0 L + L.device_type.off, L.device_type.size, L.DEVICE_TYPE_DP),
    (vbt.child0 L + L.dvo_port.off, L.dvo_port.size, L.DVO_PORT_DPA),
    (vbt.child0 L + L.aux_channel.off, L.aux_channel.size, L.DP_AUX_A),
    (vbt.child1 L + L.handle.off, L.handle.size, DEVICE_TYPE_EFP2),
    (vbt.child1 L + L.device_type.off, L.device_type.size, L.DEVICE_TYPE_DP),
    (vbt.child1 L + L.dvo_port.off, L.dvo_port.size, L.DVO_PORT_DPB),
    (vbt.child1 L + L.aux_channel.off, L.aux_channel.size, L.DP_AUX_B),
    (vbt.child2 L + L.handle.off, L.handle.size, DEVICE_TYPE_EFP3),
    (vbt.child2 L + L.device_type.off, L.device_type.size, L.DEVICE_TYPE_DP),
    (vbt.child2 L + L.dvo_port.off, L.dvo_port.size, L.DVO_PORT_DPC),
    (vbt.child2 L + L.aux_channel.off, L.aux_channel.size, L.DP_AUX_C),
    (vbt.child3 L + L.handle.off, L.handle.size, DEVICE_TYPE_EFP4),
    (vbt.child3 L + L.device_type.off, L.device_type.size, L.DEVICE_TYPE_DP),
    (vbt.child3 L + L.dvo_port.off, L.dvo_port.size, L.DVO_PORT_DPD),
    (vbt.child3 L + L.aux_channel.off, L.aux_channel.size, L.DP_AUX_D),
    (vbt.driver_features_header L + bdb_data_header_id.off, bdb_data_header_id.size,
      L.BDB_DRIVER_FEATURES),
    (vbt.driver_features_header L + bdb_data_header_size.off, bdb_data_header_size.size,
      L.sizeof_bdb_driver_features) ]

/-- Read of the member `f` of the structure at `base`. -/
def rd (m : Mem) (base : Nat) (f : Field) : Nat := load m (base + f.off) f.size

/-- The block walk of a BDB reader: from offset `o`, as long as `o` is
before `stop`, read the `struct bdb_data_header` at `o`, record
`(o, id, size)` and skip the 3-byte descriptor and `size` payload bytes.
Returns the blocks visited and the offset at which the walk stopped;
`none` when the fuel is exhausted. -/
def bdb_walk (m : Mem) (stop : Nat) : Nat → Nat → Option (List (Nat × Nat × Nat) × Nat)
  | 0, _ => none
  | fuel + 1, o =>
    if stop ≤ o then some ([], o)
    else
      let id := rd m o bdb_data_header_id
      let size := rd m o bdb_data_header_size
      match bdb_walk m stop fuel (o + sizeof_bdb_data_header + size) with
      | none => none
      | some (bs, e) => some ((o, id, size) :: bs, e)

/-- Modelled from the spec: `struct child_device_config` is declared in
`intel_vbt_defs.h`, which is not part of the sources at hand. The spec says
that the four child device records are emitted as a contiguous array right
after the General Definitions block, are accounted for in that block's
declared size, and that the child-device-record size is one fixed constant:
a record occupies `DEV_SIZE` bytes. -/
def VbtDefs.child_is_dev_size (L : VbtDefs) : Prop :=
  L.sizeof_child_device_config = DEV_SIZE

instance (L : VbtDefs) : Decidable L.child_is_dev_size := by
  unfold VbtDefs.child_is_dev_size; infer_instance

/-- Modelled from the spec: the values of `DVO_PORT_DPA` .. `DVO_PORT_DPD`
are defined in `intel_vbt_defs.h`, which is not part of the sources at
hand. The spec says that the four records carry distinct DVO-port
identifiers (A, B, C, D). -/
def VbtDefs.dvo_ports_distinct (L : VbtDefs) : Prop :=
  [L.DVO_PORT_DPA, L.DVO_PORT_DPB, L.DVO_PORT_DPC, L.DVO_PORT_DPD].Nodup

instance (L : VbtDefs) : Decidable L.dvo_ports_distinct := by
  unfold VbtDefs.dvo_ports_distinct; infer_instance

/-- The value is a mask with exactly one bit set. -/
def single_bit (x : Nat) : Prop := ∃ k, k < 16 ∧ x = 2 ^ k

instance (x : Nat) : Decidable (single_bit x) := by
  unfold single_bit; infer_instance

/-! ## OpRegion registers and the per-vGPU state -/

/-- What `opregion.c` uses from `gvt.h`, `reg.h`, `hypercall.h` and the
kernel headers: register offsets inside the OpRegion, SCIC masks, SWSCI bits,
page geometry, and error numbers. -/
structure GvtDefs where
  INTEL_GVT_OPREGION_CLID : Nat
  INTEL_GVT_OPREGION_SCIC : Nat
  INTEL_GVT_OPREGION_PARM : Nat
  INTEL_GVT_OPREGION_PAGES : Nat
  INTEL_GVT_OPREGION_SIZE : Nat
  INTEL_GVT_OPREGION_VBT_OFFSET : Nat
  OPREGION_SCIC_FUNC_MASK : Nat
  OPREGION_SCIC_FUNC_SHIFT : Nat
  OPREGION_SCIC_SUBFUNC_MASK : Nat
  OPREGION_SCIC_SUBFUNC_SHIFT : Nat
  OPREGION_SCIC_EXIT_MASK : Nat
  INTEL_GVT_OPREGION_SCIC_F_GETBIOSDATA : Nat
  INTEL_GVT_OPREGION_SCIC_F_GETBIOSCALLBACKS : Nat
  INTEL_GVT_OPREGION_SCIC_SF_SUPPRTEDCALLS : Nat
  INTEL_GVT_OPREGION_SCIC_SF_REQEUSTEDCALLBACKS : Nat
  INTEL_GVT_PCI_SWSCI : Nat
  SWSCI_SCI_SELECT : Nat
  SWSCI_SCI_TRIGGER : Nat
  PAGE_SHIFT : Nat
  PAGE_SIZE : Nat
  INTEL_GVT_INVALID_ADDR : Nat
  INTEL_GVT_HYPERVISOR_XEN : Nat
  EINVAL : Int
  ENOMEM : Int

/-- Header values used to evaluate the code on concrete data. -/
def gvt_defs : GvtDefs where
  INTEL_GVT_OPREGION_CLID := 0x1AC
  INTEL_GVT_OPREGION_SCIC := 0x200
  INTEL_GVT_OPREGION_PARM := 0x204
  INTEL_GVT_OPREGION_PAGES := 2
  INTEL_GVT_OPREGION_SIZE := 2 * 4096
  INTEL_GVT_OPREGION_VBT_OFFSET := 0x400
  OPREGION_SCIC_FUNC_MASK := 0x1E
  OPREGION_SCIC_FUNC_SHIFT := 1
  OPREGION_SCIC_SUBFUNC_MASK := 0xFF00
  OPREGION_SCIC_SUBFUNC_SHIFT := 8
  OPREGION_SCIC_EXIT_MASK := 0xE0
  INTEL_GVT_OPREGION_SCIC_F_GETBIOSDATA := 4
  INTEL_GVT_OPREGION_SCIC_F_GETBIOSCALLBACKS := 6
  INTEL_GVT_OPREGION_SCIC_SF_SUPPRTEDCALLS := 0
  INTEL_GVT_OPREGION_SCIC_SF_REQEUSTEDCALLBACKS := 1
  INTEL_GVT_PCI_SWSCI := 0xe8
  SWSCI_SCI_SELECT := 1 <<< 15
  SWSCI_SCI_TRIGGER := 1
  PAGE_SHIFT := 12
  PAGE_SIZE := 4096
  INTEL_GVT_INVALID_ADDR := 2 ^ 64 - 1
  INTEL_GVT_HYPERVISOR_XEN := 0
  EINVAL := 22
  ENOMEM := 12

/-- The null pointer. -/
def NULL : Nat := 0

/-- Conversion to `u32`. -/
def u32 (x : Nat) : Nat := x % 2 ^ 32

/-- Bitwise complement of a constant, as a `u32`. -/
def bnot32 (x : Nat) : Nat := 2 ^ 32 - 1 - x % 2 ^ 32

/-- What the code does besides updating memory: calls into the hypervisor
and the page allocator, and kernel log lines. -/
inductive Event where
  | virt_to_mfn (p : Nat)
  | map_gfn_to_mfn (vgpu gfn mfn nr : Nat) (map : Bool)
  | free_pages (addr order : Nat)
  | log (msg : String)
deriving DecidableEq, Repr

/-- The members of `struct intel_vgpu` used by `opregion.c`:
`vgpu_opregion(vgpu)->va`, `vgpu_opregion(vgpu)->gfn[]` and
`vgpu_cfg_space(vgpu)`. -/
structure intel_vgpu where
  id : Nat
  va : Nat
  gfn : Nat → Nat
  cfg_space : Mem

/-- The hypervisor services behind `intel_gvt_hypervisor_virt_to_mfn` and
`intel_gvt_hypervisor_map_gfn_to_mfn`; the outcome of a map request may
depend on the calls issued before it. -/
structure Mpt where
  virt_to_mfn : Nat → Nat
  map_gfn_to_mfn : List Event → Nat → Nat → Nat → Nat → Bool → Int

/-- Kernel state around one vGPU: `intel_gvt_host.hypervisor_type`,
`vgpu->gvt->opregion.opregion_va`, the vGPU, and the events so far. -/
structure Host where
  hypervisor_type : Nat
  opregion_va : Nat
  vgpu : intel_vgpu
  trace : List Event

/-- The loop of `init_vgpu_opregion`: `n` iterations left, index `i`. -/
def init_vgpu_opregion_loop (D : GvtDefs) (gpa : Nat) : Nat → Nat → (Nat → Nat) → (Nat → Nat)
  | 0, _, gfn => gfn
  | n + 1, i, gfn =>
    init_vgpu_opregion_loop D gpa n (i + 1)
      (Function.update gfn i (u32 ((gpa >>> D.PAGE_SHIFT) + i)))

/-- `static int init_vgpu_opregion(struct intel_vgpu *vgpu, u32 gpa)`. -/
def init_vgpu_opregion (D : GvtDefs) (s : Host) (gpa : Nat) : Int × Host :=
  if s.vgpu.va ≠ NULL then
    (-D.EINVAL,
      { s with trace := s.trace ++
          [Event.log "vgpu%d: opregion has been initialized already.\n"] })
  else
    let vgpu := { s.vgpu with va := s.opregion_va }
    let vgpu := { vgpu with
      gfn := init_vgpu_opregion_loop D gpa D.INTEL_GVT_OPREGION_PAGES 0 vgpu.gfn }
    (0, { s with vgpu := vgpu })

/-- The loop of `map_vgpu_opregion`: `n` iterations left, index `i`. -/
def map_vgpu_opregion_loop (D : GvtDefs) (H : Mpt) (vgpu : intel_vgpu) (map : Bool) :
    Nat → Nat → List Event → Int × List Event
  | 0, _, tr => (0, tr)
  | n + 1, i, tr =>
    let mfn := H.virt_to_mfn (vgpu.va + i * D.PAGE_SIZE)
    let tr := tr ++ [Event.virt_to_mfn (vgpu.va + i * D.PAGE_SIZE)]
    if mfn = D.INTEL_GVT_INVALID_ADDR then
      (-D.EINVAL, tr ++ [Event.log "fail to get MFN from VA\n"])
    else
      let ret := H.map_gfn_to_mfn tr vgpu.id (vgpu.gfn i) mfn 1 map
      let tr := tr ++ [Event.map_gfn_to_mfn vgpu.id (vgpu.gfn i) mfn 1 map]
      if ret ≠ 0 then
        (ret, tr ++ [Event.log "fail to map GFN to MFN, errno: %d\n"])
      else
        map_vgpu_opregion_loop D H vgpu map n (i + 1) tr

/-- `static int map_vgpu_opregion(struct intel_vgpu *vgpu, bool map)`. -/
def map_vgpu_opregion (D : GvtDefs) (H : Mpt) (s : Host) (map : Bool) : Int × Host :=
  let r := map_vgpu_opregion_loop D H s.vgpu map D.INTEL_GVT_OPREGION_PAGES 0 s.trace
  (r.1, { s with trace := r.2 })

/-- `int intel_vgpu_init_opregion(struct intel_vgpu *vgpu, u32 gpa)`. -/
def intel_vgpu_init_opregion (D : GvtDefs) (H : Mpt) (s : Host) (gpa : Nat) : Int × Host :=
  let s := { s with trace := s.trace ++ [Event.log "vgpu%d: init vgpu opregion\n"] }
  if s.hypervisor_type = D.INTEL_GVT_HYPERVISOR_XEN then
    let s := { s with trace := s.trace ++ [Event.log "emulate opregion from kernel\n"] }
    let r := init_vgpu_opregion D s gpa
    if r.1 ≠ 0 then r
    else
      let r := map_vgpu_opregion D H r.2 true
      if r.1 ≠ 0 then r
      else (0, r.2)
  else (0, s)

/-! ## SWSCI requests -/

/-- `GVT_OPREGION_FUNC(scic)`. -/
def GVT_OPREGION_FUNC (D : GvtDefs) (scic : Nat) : Nat :=
  u32 ((scic &&& D.OPREGION_SCIC_FUNC_MASK) >>> D.OPREGION_SCIC_FUNC_SHIFT)

/-- `GVT_OPREGION_SUBFUNC(scic)`. -/
def GVT_OPREGION_SUBFUNC (D : GvtDefs) (scic : Nat) : Nat :=
  u32 ((scic &&& D.OPREGION_SCIC_SUBFUNC_MASK) >>> D.OPREGION_SCIC_SUBFUNC_SHIFT)

/-- `static const char *opregion_func_name(u32 func)`. -/
def opregion_func_name (func : Nat) : String :=
  if func ≤ 3 ∨ func = 5 ∨ (7 ≤ func ∧ func ≤ 15) then "Reserved"
  else if func = 4 then "Get BIOS Data"
  else if func = 6 then "System BIOS Callbacks"
  else "Unknown"

/-- `static const char *opregion_subfunc_name(u32 subfunc)`. -/
def opregion_subfunc_name (subfunc : Nat) : String :=
  if subfunc = 0 then "Supported Calls"
  else if subfunc = 1 then "Requested Callbacks"
  else if (2 ≤ subfunc ∧ subfunc ≤ 3) ∨ (8 ≤ subfunc ∧ subfunc ≤ 9) then "Reserved"
  else if subfunc = 5 then "Boot Display"
  else if subfunc = 6 then "TV-Standard/Video-Connector"
  else if subfunc = 7 then "Internal Graphics"
  else if subfunc = 10 then "Spread Spectrum Clocks"
  else if subfunc = 11 then "Get AKSV"
  else "Unknown"

/-- `static bool querying_capabilities(u32 scic)`. -/
def querying_capabilities (D : GvtDefs) (scic : Nat) : Bool :=
  let func := GVT_OPREGION_FUNC D scic
  let subfunc := GVT_OPREGION_SUBFUNC D scic
  if (func = D.INTEL_GVT_OPREGION_SCIC_F_GETBIOSDATA ∧
        subfunc = D.INTEL_GVT_OPREGION_SCIC_SF_SUPPRTEDCALLS)
      ∨ (func = D.INTEL_GVT_OPREGION_SCIC_F_GETBIOSDATA ∧
        subfunc = D.INTEL_GVT_OPREGION_SCIC_SF_REQEUSTEDCALLBACKS)
      ∨ (func = D.INTEL_GVT_OPREGION_SCIC_F_GETBIOSCALLBACKS ∧
        subfunc = D.INTEL_GVT_OPREGION_SCIC_SF_SUPPRTEDCALLS) then
    true
  else false

/-- Outcome of one SWSCI request: return value, the vGPU, kernel memory and
the log lines written. -/
structure Req where
  ret : Int
  vgpu : intel_vgpu
  mem : Mem
  log : List String

/-- The body of `intel_vgpu_emulate_opregion_request`, with the two naming
functions used for the log line as arguments. The result is `none` when
`*scic` is read through a null `vgpu_opregion(vgpu)->va`. -/
def emulate_opregion_request (fname sname : Nat → String) (D : GvtDefs)
    (vgpu : intel_vgpu) (mem : Mem) (swsci : Nat) : Option Req :=
  let scic := vgpu.va + D.INTEL_GVT_OPREGION_SCIC
  let parm := vgpu.va + D.INTEL_GVT_OPREGION_PARM
  if swsci &&& D.SWSCI_SCI_SELECT = 0 then
    some ⟨0, vgpu, mem, ["requesting SMI service\n"]⟩
  else if load vgpu.cfg_space D.INTEL_GVT_PCI_SWSCI 1 &&& D.SWSCI_SCI_TRIGGER ≠ 0
      ∨ swsci &&& D.SWSCI_SCI_TRIGGER = 0 then
    some ⟨0, vgpu, mem, []⟩
  else if vgpu.va = NULL then none
  else
    let func := GVT_OPREGION_FUNC D (load mem scic 4)
    let subfunc := GVT_OPREGION_SUBFUNC D (load mem scic 4)
    if ¬ querying_capabilities D (load mem scic 4) then
      let mem := store mem scic 4 (load mem scic 4 &&& bnot32 D.OPREGION_SCIC_EXIT_MASK)
      some ⟨0, vgpu, mem,
        ["requesting runtime service: func \"" ++ fname func ++ "\", subfunc \""
          ++ sname subfunc ++ "\"\n"]⟩
    else
      let mem := store mem scic 4 0
      let mem := store mem parm 4 0
      some ⟨0, vgpu, mem, []⟩

/-- `int intel_vgpu_emulate_opregion_request(struct intel_vgpu *vgpu, u32 swsci)`. -/
def intel_vgpu_emulate_opregion_request (D : GvtDefs) (vgpu : intel_vgpu) (mem : Mem)
    (swsci : Nat) : Option Req :=
  emulate_opregion_request opregion_func_name opregion_subfunc_name D vgpu mem swsci

/-- The `SCIC` word of the vGPU's OpRegion. -/
def SCIC (D : GvtDefs) (vgpu : intel_vgpu) (mem : Mem) : Nat :=
  load mem (vgpu.va + D.INTEL_GVT_OPREGION_SCIC) 4

/-- The `PARM` word of the vGPU's OpRegion. -/
def PARM (D : GvtDefs) (vgpu : intel_vgpu) (mem : Mem) : Nat :=
  load mem (vgpu.va + D.INTEL_GVT_OPREGION_PARM) 4

/-- A vGPU used to evaluate the code: the OpRegion is mapped at `0x10000`
and the previous trigger bit is clear. -/
def sample_vgpu : intel_vgpu := ⟨1, 0x10000, fun _ => 0, fun _ => 0⟩

/-- A memory image for `sample_vgpu`: `SCIC` holds `scic`, `PARM` holds
`0x1234`, every other byte is non-zero. -/
def sample_mem (scic : Nat) : Mem :=
  store (store (fun a => a % 7 + 1) 0x10200 4 scic) 0x10204 4 0x1234

/-- The 4-byte `SCIC` and `PARM` words do not overlap. -/
def GvtDefs.regs_disjoint (D : GvtDefs) : Prop :=
  D.INTEL_GVT_OPREGION_SCIC + 4 ≤ D.INTEL_GVT_OPREGION_PARM
    ∨ D.INTEL_GVT_OPREGION_PARM + 4 ≤ D.INTEL_GVT_OPREGION_SCIC

instance (D : GvtDefs) : Decidable D.regs_disjoint := by
  unfold GvtDefs.regs_disjoint; infer_instance

/-- The three (function, sub-function) pairs tested by
`querying_capabilities`. -/
def capability_pairs (D : GvtDefs) : List (Nat × Nat) :=
  [(D.INTEL_GVT_OPREGION_SCIC_F_GETBIOSDATA, D.INTEL_GVT_OPREGION_SCIC_SF_SUPPRTEDCALLS),
   (D.INTEL_GVT_OPREGION_SCIC_F_GETBIOSDATA, D.INTEL_GVT_OPREGION_SCIC_SF_REQEUSTEDCALLBACKS),
   (D.INTEL_GVT_OPREGION_SCIC_F_GETBIOSCALLBACKS, D.INTEL_GVT_OPREGION_SCIC_SF_SUPPRTEDCALLS)]

/-- The sample vGPU with the trigger bit already set in its configuration
space. -/
def sample_vgpu_triggered : intel_vgpu :=
  { sample_vgpu with cfg_space := store (fun _ => 0) 0xe8 1 1 }

/-- A host around the sample vGPU (already attached), for the given
hypervisor type. -/
def sample_host (hypervisor_type : Nat) : Host :=
  ⟨hypervisor_type, 0x20000, sample_vgpu, []⟩

/-- Hypervisor services that always succeed. -/
def sample_mpt : Mpt := ⟨fun p => p / 4096, fun _ _ _ _ _ _ => 0⟩

/-! ## Host OpRegion buffer and detach -/

/-- `struct opregion_header` (packed): `signature[16]`, `size`,
`opregion_ver`, `bios_ver[32]`, `vbios_ver[16]`, `driver_ver[16]`, `mboxes`,
`driver_model`, `pcon`, `dver[32]`, `rsvd[124]`. -/
def sizeof_opregion_header : Nat := 16 + 4 + 4 + 32 + 16 + 16 + 4 + 4 + 4 + 32 + 124
def opregion_header_signature : Field := ⟨0, 16⟩
def opregion_header_size : Field := ⟨16, 4⟩
def opregion_header_mboxes : Field := ⟨16 + 4 + 4 + 32 + 16 + 16, 4⟩

/-- A string literal as an object: its characters followed by NUL. -/
def strlit (s : String) : Mem := wbytes (fun _ => 0) 0 (s.toList.map Char.toNat ++ [0])

/-- `sizeof` of a string literal. -/
def sizeof_strlit (s : String) : Nat := s.length + 1

/-- The page allocator: `get_order(size)` and the address returned by
`__get_free_pages(GFP_KERNEL | __GFP_ZERO, order)`, `NULL` on failure. -/
structure Allocator where
  get_order : Nat → Nat
  get_free_pages : Nat → Nat

/-- `void intel_vgpu_clean_opregion(struct intel_vgpu *vgpu)`. -/
def intel_vgpu_clean_opregion (D : GvtDefs) (A : Allocator) (H : Mpt) (s : Host) : Host :=
  let s := { s with trace := s.trace ++ [Event.log "vgpu%d: clean vgpu opregion\n"] }
  if s.vgpu.va = NULL then s
  else if s.hypervisor_type = D.INTEL_GVT_HYPERVISOR_XEN then
    let s := (map_vgpu_opregion D H s false).2
    let s := { s with trace := s.trace ++
      [Event.free_pages s.vgpu.va (A.get_order D.INTEL_GVT_OPREGION_SIZE)] }
    { s with vgpu := { s.vgpu with va := NULL } }
  else s

/-- `void intel_gvt_clean_opregion(struct intel_gvt *gvt)`. -/
def intel_gvt_clean_opregion (D : GvtDefs) (A : Allocator) (s : Host) : Host :=
  let s := { s with trace := s.trace ++
    [Event.free_pages s.opregion_va (A.get_order D.INTEL_GVT_OPREGION_SIZE)] }
  { s with opregion_va := NULL }

/-- `int intel_gvt_init_opregion(struct intel_gvt *gvt)`; `v` is the initial
content of the local `struct vbt v`. A successful allocation yields
`PAGE_SIZE << order` zeroed bytes. -/
def intel_gvt_init_opregion (D : GvtDefs) (L : VbtDefs) (A : Allocator) (s : Host)
    (mem : Mem) (v : Mem) : Int × Host × Mem :=
  let s := { s with trace := s.trace ++ [Event.log "init host opregion\n"] }
  let order := A.get_order D.INTEL_GVT_OPREGION_SIZE
  let va := A.get_free_pages order
  let mem := if va = NULL then mem else memset mem va 0 (D.PAGE_SIZE <<< order)
  let s := { s with opregion_va := va }
  if s.opregion_va = NULL then
    (-D.ENOMEM,
      { s with trace := s.trace ++ [Event.log "fail to get memory for virt opregion\n"] },
      mem)
  else
    -- emulated opregion with VBT mailbox only
    let header := s.opregion_va
    let mem := memcpy mem (header + opregion_header_signature.off)
      (strlit OPREGION_SIGNATURE) 0 (sizeof_strlit OPREGION_SIGNATURE)
    let mem := store mem (header + opregion_header_mboxes.off)
      opregion_header_mboxes.size MBOX_VBT
    let buf := s.opregion_va
    let mem := store mem (buf + D.INTEL_GVT_OPREGION_CLID) 1 0x3
    -- emulated vbt from virt vbt generation
    let v := virt_vbt_generation L v
    let mem := memcpy mem (s.opregion_va + D.INTEL_GVT_OPREGION_VBT_OFFSET) v 0 (vbt.sizeof L)
    (0, s, mem)

/-- A page allocator used to evaluate the code: order 1 for the two-page
OpRegion, pages at `0x20000`. -/
def sample_alloc : Allocator :=
  ⟨fun size => if size ≤ 4096 then 0 else if size ≤ 8192 then 1 else 2, fun _ => 0x20000⟩

/-- A page allocator that has no memory left. -/
def sample_alloc_fail : Allocator := ⟨sample_alloc.get_order, fun _ => NULL⟩

/-- A Xen host whose OpRegion buffer is at `0x20000` and whose vGPU has not
been attached. -/
def sample_host_fresh : Host :=
  ⟨0, 0x20000, ⟨1, NULL, fun _ => 0, fun _ => 0⟩, []⟩

/-! ## Attach sequences, layouts of the OpRegion buffer, assigned VBT ranges -/

/-- The hypervisor calls of one iteration of the `map_vgpu_opregion` loop
that goes through: translation of the page, then the map request. -/
def map_page_events (D : GvtDefs) (H : Mpt) (vgpu : intel_vgpu) (map : Bool) (i : Nat) :
    List Event :=
  [Event.virt_to_mfn (vgpu.va + i * D.PAGE_SIZE),
   Event.map_gfn_to_mfn vgpu.id (vgpu.gfn i) (H.virt_to_mfn (vgpu.va + i * D.PAGE_SIZE)) 1 map]

/-- The hypervisor calls for the pages `i, i + 1, .., i + n - 1`, in index
order. -/
def map_pages_events (D : GvtDefs) (H : Mpt) (vgpu : intel_vgpu) (map : Bool) (i n : Nat) :
    List Event :=
  (List.range' i n).flatMap (map_page_events D H vgpu map)

/-- Page `i` of the vGPU's OpRegion translates to a valid frame and its map
request is accepted. -/
def page_ok (D : GvtDefs) (H : Mpt) (vgpu : intel_vgpu) (map : Bool) (i : Nat) : Prop :=
  H.virt_to_mfn (vgpu.va + i * D.PAGE_SIZE) ≠ D.INTEL_GVT_INVALID_ADDR
    ∧ ∀ tr, H.map_gfn_to_mfn tr vgpu.id (vgpu.gfn i)
        (H.virt_to_mfn (vgpu.va + i * D.PAGE_SIZE)) 1 map = 0

/-- No `u32` wrap-around in `(gpa >> PAGE_SHIFT) + i` for a 32-bit `gpa` and
`i < INTEL_GVT_OPREGION_PAGES`. -/
def GvtDefs.gfn_no_wrap (D : GvtDefs) : Prop :=
  (2 ^ 32 - 1) / 2 ^ D.PAGE_SHIFT + D.INTEL_GVT_OPREGION_PAGES ≤ 2 ^ 32

instance (D : GvtDefs) : Decidable D.gfn_no_wrap := by
  unfold GvtDefs.gfn_no_wrap; infer_instance

/-- Further attach attempts on the same vGPU, each with its own hypervisor
behaviour and `gpa`: the return values in order, and the final state. -/
def attach_again (D : GvtDefs) : List (Mpt × Nat) → Host → List Int × Host
  | [], s => ([], s)
  | c :: cs, s =>
    ((intel_vgpu_init_opregion D c.1 s c.2).1
        :: (attach_again D cs (intel_vgpu_init_opregion D c.1 s c.2).2).1,
      (attach_again D cs (intel_vgpu_init_opregion D c.1 s c.2).2).2)

/-- Hypervisor services whose translation fails for the page at `bad`. -/
def sample_mpt_bad_page (bad : Nat) : Mpt :=
  ⟨fun p => if p = bad then gvt_defs.INTEL_GVT_INVALID_ADDR else p / 4096,
   fun _ _ _ _ _ _ => 0⟩

/-- Hypervisor services whose map request is refused with `-12` for the
guest frame `bad`. -/
def sample_mpt_bad_gfn (bad : Nat) : Mpt :=
  ⟨fun p => p / 4096, fun _ _ gfn _ _ _ => if gfn = bad then -12 else 0⟩

/-- The event is an unmap request (`map == false`). -/
def Event.is_unmap : Event → Bool
  | Event.map_gfn_to_mfn _ _ _ _ map => !map
  | _ => false

/-- The two memories hold the same bytes at the offsets below `n`. -/
def agree (n : Nat) (m m' : Mem) : Prop := ∀ i, i < n → m i = m' i

/-- The byte ranges assigned by `virt_vbt_generation` after the `memset`, in
program order: offset inside `struct vbt` and length. -/
def vbt_assigned (L : VbtDefs) : List (Nat × Nat) :=
  [ (vbt.header + L.vbt_header_signature.off + 0, 1),
    (vbt.header + L.vbt_header_signature.off + 1, 1),
    (vbt.header + L.vbt_header_signature.off + 2, 1),
    (vbt.header + L.vbt_header_signature.off + 3, 1),
    (vbt.header + L.vbt_header_version.off, L.vbt_header_version.size),
    (vbt.header + L.vbt_header_header_size.off, L.vbt_header_header_size.size),
    (vbt.header + L.vbt_header_vbt_size.off, L.vbt_header_vbt_size.size),
    (vbt.header + L.vbt_header_bdb_offset.off, L.vbt_header_bdb_offset.size),
    (vbt.bdb_header L + L.bdb_header_signature.off, "BIOS_DATA_BLOCK".length + 1),
    (vbt.bdb_header L + L.bdb_header_version.off, L.bdb_header_version.size),
    (vbt.bdb_header L + L.bdb_header_header_size.off, L.bdb_header_header_size.size),
    (vbt.bdb_header L + L.bdb_header_bdb_size.off, L.bdb_header_bdb_size.size),
    (vbt.general_features_header L + bdb_data_header_id.off, bdb_data_header_id.size),
    (vbt.general_features_header L + bdb_data_header_size.off, bdb_data_header_size.size),
    (vbt.general_features L + L.int_crt_support.byte, 1),
    (vbt.general_features L + L.int_tv_support.byte, 1),
    (vbt.general_definitions_header L + bdb_data_header_id.off, bdb_data_header_id.size),
    (vbt.general_definitions_header L + bdb_data_header_size.off, bdb_data_header_size.size),
    (vbt.general_definitions L + L.child_dev_size.off, L.child_dev_size.size),
    (vbt.child0 L + L.handle.off, L.handle.size),
    (vbt.child0 L + L.device_type.off, L.device_type.size),
    (vbt.child0 L + L.dvo_port.off, L.dvo_port.size),
    (vbt.child0 L + L.aux_channel.off, L.aux_channel.size),
    (vbt.child1 L + L.handle.off, L.handle.size),
    (vbt.child1 L + L.device_type.off, L.device_type.size),
    (vbt.child1 L + L.dvo_port.off, L.dvo_port.size),
    (vbt.child1 L + L.aux_channel.off, L.aux_channel.size),
    (vbt.child2 L + L.handle.off, L.handle.size),
    (vbt.child2 L + L.device_type.off, L.device_type.size),
    (vbt.child2 L + L.dvo_port.off, L.dvo_port.size),
    (vbt.child2 L + L.aux_channel.off, L.aux_channel.size),
    (vbt.child3 L + L.handle.off, L.handle.size),
    (vbt.child3 L + L.device_type.off, L.device_type.size),
    (vbt.child3 L + L.dvo_port.off, L.dvo_port.size),
    (vbt.child3 L + L.aux_channel.off, L.aux_channel.size),
    (vbt.driver_features_header L + bdb_data_header_id.off, bdb_data_header_id.size),
    (vbt.driver_features_header L + bdb_data_header_size.off, bdb_data_header_size.size),
    (vbt.driver_features L + L.lvds_config.byte, 1) ]

/-- The byte ranges `(offset, length)` are pairwise disjoint. -/
def parts_disjoint (ps : List (Nat × Nat)) : Prop :=
  ps.Pairwise (fun r s => r.1 + r.2 ≤ s.1 ∨ s.1 + s.2 ≤ r.1)

instance (ps : List (Nat × Nat)) : Decidable (parts_disjoint ps) := by
  unfold parts_disjoint; infer_instance

/-- Every byte range `(offset, length)` ends within `size` bytes. -/
def parts_within (ps : List (Nat × Nat)) (size : Nat) : Prop :=
  ∀ r ∈ ps, r.1 + r.2 ≤ size

instance (ps : List (Nat × Nat)) (size : Nat) : Decidable (parts_within ps size) := by
  unfold parts_within; infer_instance

/-- The parts of the OpRegion buffer that `intel_gvt_init_opregion` writes
into: the header structure, the LID byte, the VBT. -/
def init_parts (D : GvtDefs) (L : VbtDefs) : List (Nat × Nat) :=
  [(0, sizeof_opregion_header), (D.INTEL_GVT_OPREGION_CLID, 1),
   (D.INTEL_GVT_OPREGION_VBT_OFFSET, vbt.sizeof L)]

/-- The header structure, the LID byte and the VBT area of the OpRegion do
not overlap. -/
def GvtDefs.init_layout (D : GvtDefs) (L : VbtDefs) : Prop :=
  parts_disjoint (init_parts D L)

instance (D : GvtDefs) (L : VbtDefs) : Decidable (D.init_layout L) := by
  unfold GvtDefs.init_layout; infer_instance

/-- Modelled from the spec: the offsets `INTEL_GVT_OPREGION_CLID`,
`INTEL_GVT_OPREGION_SCIC`, `INTEL_GVT_OPREGION_PARM`,
`INTEL_GVT_OPREGION_VBT_OFFSET` and the size `INTEL_GVT_OPREGION_SIZE` are
defined in `reg.h`, which is not part of the sources at hand. The spec
describes the OpRegion as one fixed-layout buffer of the region size with the
header at its front, the LID byte, the SCIC and PARM registers and the VBT
each at its own fixed offset inside it: the five parts lie within the buffer
and do not overlap. -/
def GvtDefs.opregion_layout (D : GvtDefs) (L : VbtDefs) : Prop :=
  parts_disjoint (init_parts D L ++
      [(D.INTEL_GVT_OPREGION_SCIC, 4), (D.INTEL_GVT_OPREGION_PARM, 4)])
    ∧ parts_within (init_parts D L ++
      [(D.INTEL_GVT_OPREGION_SCIC, 4), (D.INTEL_GVT_OPREGION_PARM, 4)])
      D.INTEL_GVT_OPREGION_SIZE

instance (D : GvtDefs) (L : VbtDefs) : Decidable (D.opregion_layout L) := by
  unfold GvtDefs.opregion_layout; infer_instance

/-- The pages of order `get_order(size)` hold at least `size` bytes. -/
def Allocator.covers (A : Allocator) (D : GvtDefs) : Prop :=
  D.INTEL_GVT_OPREGION_SIZE ≤ D.PAGE_SIZE <<< A.get_order D.INTEL_GVT_OPREGION_SIZE

instance (A : Allocator) (D : GvtDefs) : Decidable (A.covers D) := by
  unfold Allocator.covers; infer_instance

/-- The bytes of a string: its characters. -/
def str_bytes (s : String) : List Nat := s.toList.map Char.toNat

/-! ## Memory lemmas -/

theorem wbytes_outside (m : Mem) (a : Nat) (bs : List Nat) (i : Nat)
    (h : i < a ∨ a + bs.length ≤ i) : wbytes m a bs i = m i := by
  unfold wbytes
  rw [if_neg]
  omega

theorem wbytes_inside (m : Mem) (a : Nat) (bs : List Nat) (k : Nat)
    (h : k < bs.length) : wbytes m a bs (a + k) = bs.getD k 0 := by
  unfold wbytes
  rw [if_pos (by omega)]
  congr 1
  omega

theorem rbytes_length (m : Mem) (a n : Nat) : (rbytes m a n).length = n := by
  induction n generalizing a with
  | zero => rfl
  | succ n ih => simp [rbytes, ih]

theorem rbytes_congr (m m' : Mem) (a n : Nat)
    (h : ∀ i, a ≤ i → i < a + n → m i = m' i) : rbytes m a n = rbytes m' a n := by
  induction n generalizing a with
  | zero => rfl
  | succ n ih =>
    simp only [rbytes]
    rw [h a (le_refl a) (by omega), ih (a + 1) (fun i h1 h2 => h i (by omega) (by omega))]

theorem rbytes_wbytes_disj (m : Mem) (a : Nat) (bs : List Nat) (b n : Nat)
    (h : b + n ≤ a ∨ a + bs.length ≤ b) : rbytes (wbytes m a bs) b n = rbytes m b n := by
  apply rbytes_congr
  intro i h1 h2
  exact wbytes_outside m a bs i (by omega)

theorem rbytes_wbytes_same (m : Mem) (a : Nat) (bs : List Nat) :
    rbytes (wbytes m a bs) a bs.length = bs.map (· % 256) := by
  induction bs generalizing m a with
  | nil => rfl
  | cons b bs ih =>
    simp only [List.length_cons, rbytes, List.map_cons]
    have h0 : wbytes m a (b :: bs) a = b := by
      have := wbytes_inside m a (b :: bs) 0 (by simp)
      simpa using this
    rw [h0]
    congr 1
    refine Eq.trans ?_ (ih (wbytes m a (b :: bs)) (a + 1))
    apply rbytes_congr
    intro i h1 h2
    obtain ⟨k, rfl⟩ : ∃ k, i = a + 1 + k := ⟨i - (a + 1), by omega⟩
    rw [wbytes_inside _ (a + 1) bs k (by omega)]
    have := wbytes_inside m a (b :: bs) (k + 1) (by simp; omega)
    rw [show a + 1 + k = a + (k + 1) by omega, this]
    simp [List.getD]

theorem le_bytes_map_mod (w v : Nat) : (le_bytes w v).map (· % 256) = le_bytes w v := by
  induction w generalizing v with
  | zero => rfl
  | succ w ih => simp [le_bytes, ih]

theorem le_val_rbytes_lt (m : Mem) (a n : Nat) : le_val (rbytes m a n) < 256 ^ n := by
  induction n generalizing a with
  | zero => simp [rbytes, le_val]
  | succ n ih =>
    simp only [rbytes, le_val]
    have h1 := ih (a + 1)
    have h2 : m a % 256 < 256 := Nat.mod_lt _ (by norm_num)
    rw [pow_succ]
    omega

theorem load_lt (m : Mem) (a n : Nat) : load m a n < 256 ^ n :=
  le_val_rbytes_lt m a n

theorem le_bytes_length (w v : Nat) : (le_bytes w v).length = w := by
  induction w generalizing v with
  | zero => rfl
  | succ w ih => simp [le_bytes, ih]

theorem le_val_le_bytes (w v : Nat) : le_val (le_bytes w v) = v % 256 ^ w := by
  induction w generalizing v with
  | zero => simp [le_bytes, le_val, Nat.mod_one]
  | succ w ih =>
    simp only [le_bytes, le_val, ih]
    rw [pow_succ, Nat.mul_comm (256 ^ w) 256, Nat.mod_mul]

theorem load_store_same (m : Mem) (a w v : Nat) :
    load (store m a w v) a w = v % 256 ^ w := by
  unfold load store
  have := rbytes_wbytes_same m a (le_bytes w v)
  rw [le_bytes_length] at this
  rw [this, le_bytes_map_mod, le_val_le_bytes]

theorem load_store_disj (m : Mem) (a w v b n : Nat) (h : b + n ≤ a ∨ a + w ≤ b) :
    load (store m a w v) b n = load m b n := by
  unfold load store
  rw [rbytes_wbytes_disj _ _ _ _ _ (by rw [le_bytes_length]; exact h)]

theorem load_wbits_disj (m : Mem) (a : Nat) (f : BitField) (v b n : Nat)
    (h : b + n ≤ a + f.byte ∨ a + f.byte + 1 ≤ b) :
    load (wbits m a f v) b n = load m b n := by
  unfold wbits
  exact load_store_disj _ _ _ _ _ _ h

theorem load_strcpy_disj (m : Mem) (a : Nat) (s : String) (b n : Nat)
    (h : b + n ≤ a ∨ a + (s.length + 1) ≤ b) :
    load (strcpy m a s) b n = load m b n := by
  unfold load strcpy
  rw [rbytes_wbytes_disj _ _ _ _ _ (by simpa using h)]

theorem load_memset_disj (m : Mem) (a c k b n : Nat) (h : b + n ≤ a ∨ a + k ≤ b) :
    load (memset m a c k) b n = load m b n := by
  unfold load memset
  rw [rbytes_wbytes_disj _ _ _ _ _ (by simpa using h)]

/-! ## The generated VBT, member by member -/

set_option maxHeartbeats 4000000 in
theorem virt_vbt_generation_fields (L : VbtDefs) (h : L.WF) (v : Mem) :
    ∀ e ∈ vbt_fields L, load (virt_vbt_generation L v) e.1 e.2.1 = e.2.2 := by
  simp only [VbtDefs.WF, Field.before, Field.within, BitField.within, fits] at h
  simp only [vbt_fields, List.forall_mem_cons, List.not_mem_nil, false_imp_iff, implies_true,
    and_true]
  simp only [virt_vbt_generation, vbt.header, vbt.bdb_header, vbt.general_features_header,
    vbt.general_features, vbt.general_definitions_header, vbt.general_definitions, vbt.child0,
    vbt.child1, vbt.child2, vbt.child3, vbt.driver_features_header, vbt.driver_features,
    vbt.sizeof, sizeof_bdb_data_header, bdb_data_header_id, bdb_data_header_size,
    DEV_SIZE, DEVICE_TYPE_EFP1, DEVICE_TYPE_EFP2, DEVICE_TYPE_EFP3, DEVICE_TYPE_EFP4,
    String.length, List.length] at h ⊢
  refine ⟨?_, ?_, ?_, ?_, ?_, ?_, ?_, ?_, ?_, ?_, ?_, ?_, ?_, ?_, ?_, ?_, ?_, ?_, ?_, ?_, ?_,
    ?_, ?_, ?_, ?_, ?_, ?_, ?_, ?_, ?_, ?_, ?_, ?_, ?_⟩
  all_goals
    simp (disch := omega) only [load_store_disj, load_wbits_disj, load_strcpy_disj]
    rw [load_store_same]
    apply Nat.mod_eq_of_lt
    first | omega | decide
/-- The declared size of the General Definitions block reaches
`driver_features_header` exactly when a child device record occupies
`DEV_SIZE` bytes. -/
theorem general_definitions_extent_iff (L : VbtDefs) :
    vbt.general_definitions L + (L.sizeof_bdb_general_definitions + 4 * DEV_SIZE)
        = vbt.driver_features_header L
      ↔ L.child_is_dev_size := by
  simp only [vbt.driver_features_header, vbt.child3, vbt.child2, vbt.child1, vbt.child0,
    VbtDefs.child_is_dev_size, DEV_SIZE]
  omega

/-- Claim C1. In the blob built by `virt_vbt_generation` the declared block
sizes equal the byte extents of the payloads: the block walk that starts at
`header.bdb_offset + bdb_header.header_size` and skips a 3-byte descriptor
plus `size` bytes each time visits exactly the General Features, General
Definitions and Driver Features blocks, finds each descriptor at the offset
of the corresponding `*_header` member of `struct vbt`, and stops exactly
at `sizeof(struct vbt)` (for every amount of fuel of at least four steps).
The General Definitions size `sizeof(struct bdb_general_definitions) +
4 * DEV_SIZE` is `sizeof(struct bdb_general_definitions) +
4 * sizeof(struct child_device_config)` and its payload ends at
`driver_features_header`. -/
theorem virt_vbt_generation_block_walk (L : VbtDefs) (h : L.WF)
    (hc : L.child_is_dev_size) (v : Mem) (fuel : Nat) (hf : 4 ≤ fuel) :
    bdb_walk (virt_vbt_generation L v) (vbt.sizeof L) fuel
        (rd (virt_vbt_generation L v) vbt.header L.vbt_header_bdb_offset
          + rd (virt_vbt_generation L v) (vbt.bdb_header L) L.bdb_header_header_size)
      = some ([(vbt.general_features_header L, L.BDB_GENERAL_FEATURES,
                  L.sizeof_bdb_general_features),
               (vbt.general_definitions_header L, L.BDB_GENERAL_DEFINITIONS,
                  L.sizeof_bdb_general_definitions + 4 * DEV_SIZE),
               (vbt.driver_features_header L, L.BDB_DRIVER_FEATURES,
                  L.sizeof_bdb_driver_features)],
              vbt.sizeof L)
    ∧ L.sizeof_bdb_general_definitions + 4 * DEV_SIZE
        = L.sizeof_bdb_general_definitions + 4 * L.sizeof_child_device_config
    ∧ vbt.general_definitions L + (L.sizeof_bdb_general_definitions + 4 * DEV_SIZE)
        = vbt.driver_features_header L := by
  have F := virt_vbt_generation_fields L h v
  simp only [vbt_fields, List.forall_mem_cons, List.not_mem_nil, false_imp_iff, implies_true,
    and_true] at F
  obtain ⟨-, -, -, -, -, -, -, fbo, -, fhs, -, f1i, f1s, f2i, f2s, -, -, -, -, -, -, -, -, -,
    -, -, -, -, -, -, -, -, f3i, f3s⟩ := F
  have hc' : L.sizeof_child_device_config = 38 := hc
  obtain ⟨k, rfl⟩ : ∃ k, fuel = k + 4 := ⟨fuel - 4, by omega⟩
  have e1 : vbt.general_features_header L + sizeof_bdb_data_header
      + L.sizeof_bdb_general_features = vbt.general_definitions_header L := rfl
  have e2 : vbt.general_definitions_header L + sizeof_bdb_data_header
      + (L.sizeof_bdb_general_definitions + 4 * DEV_SIZE) = vbt.driver_features_header L := by
    simp only [vbt.driver_features_header, vbt.child3, vbt.child2, vbt.child1, vbt.child0,
      vbt.general_definitions, DEV_SIZE]
    omega
  have e3 : vbt.driver_features_header L + sizeof_bdb_data_header
      + L.sizeof_bdb_driver_features = vbt.sizeof L := rfl
  have n1 : ¬ vbt.sizeof L ≤ vbt.general_features_header L := by
    simp only [vbt.sizeof, vbt.driver_features, vbt.driver_features_header, vbt.child3,
      vbt.child2, vbt.child1, vbt.child0, vbt.general_definitions,
      vbt.general_definitions_header, vbt.general_features, sizeof_bdb_data_header]
    omega
  have n2 : ¬ vbt.sizeof L ≤ vbt.general_definitions_header L := by
    simp only [vbt.sizeof, vbt.driver_features, vbt.driver_features_header, vbt.child3,
      vbt.child2, vbt.child1, vbt.child0, vbt.general_definitions, sizeof_bdb_data_header]
    omega
  have n3 : ¬ vbt.sizeof L ≤ vbt.driver_features_header L := by
    simp only [vbt.sizeof, vbt.driver_features, sizeof_bdb_data_header]
    omega
  refine ⟨?_, by rw [hc']; rfl, e2⟩
  simp only [rd] at *
  rw [fbo, fhs]
  show bdb_walk _ _ _ (vbt.general_features_header L) = _
  simp only [bdb_walk, rd, f1i, f1s, f2i, f2s, f3i, f3s, e1, e2, e3, n1, n2, n3, if_false,
    le_refl, if_true]

/-- Witness for C1: the walk over the blob generated for `vbt198` from a
buffer filled with `0xAA`. -/
theorem virt_vbt_generation_block_walk_witness :
    vbt198.WF ∧ vbt198.child_is_dev_size ∧
    bdb_walk (virt_vbt_generation vbt198 (fun _ => 0xAA)) 263 4
        (rd (virt_vbt_generation vbt198 (fun _ => 0xAA)) 0 vbt198.vbt_header_bdb_offset
          + rd (virt_vbt_generation vbt198 (fun _ => 0xAA)) 48 vbt198.bdb_header_header_size)
      = some ([(70, 1, 5), (78, 2, 157), (238, 12, 22)], 263) :=
  ⟨by decide, by decide,
    (virt_vbt_generation_block_walk vbt198 (by decide) (by decide) (fun _ => 0xAA) 4
      (by decide)).1⟩

/-- Claim C2. In the blob built by `virt_vbt_generation`:
`header.vbt_size + header.header_size == sizeof(struct vbt)`;
`bdb_header.bdb_size == sizeof(struct vbt) - sizeof(struct vbt_header) -
sizeof(struct bdb_header)`; `general_definitions_header.size ==
sizeof(struct bdb_general_definitions) + 4 * general_definitions.child_dev_size`;
`header.bdb_offset` is the offset of `bdb_header` in the blob and equals
`header.header_size`; `bdb_header.header_size == sizeof(struct bdb_header)`. -/
theorem virt_vbt_generation_header_sizes (L : VbtDefs) (h : L.WF) (v : Mem) :
    rd (virt_vbt_generation L v) vbt.header L.vbt_header_vbt_size
        + rd (virt_vbt_generation L v) vbt.header L.vbt_header_header_size = vbt.sizeof L
    ∧ rd (virt_vbt_generation L v) (vbt.bdb_header L) L.bdb_header_bdb_size
        = vbt.sizeof L - L.sizeof_vbt_header - L.sizeof_bdb_header
    ∧ rd (virt_vbt_generation L v) (vbt.general_definitions_header L) bdb_data_header_size
        = L.sizeof_bdb_general_definitions
          + 4 * rd (virt_vbt_generation L v) (vbt.general_definitions L) L.child_dev_size
    ∧ rd (virt_vbt_generation L v) vbt.header L.vbt_header_bdb_offset = vbt.bdb_header L
    ∧ rd (virt_vbt_generation L v) vbt.header L.vbt_header_bdb_offset
        = rd (virt_vbt_generation L v) vbt.header L.vbt_header_header_size
    ∧ rd (virt_vbt_generation L v) (vbt.bdb_header L) L.bdb_header_header_size
        = L.sizeof_bdb_header := by
  have F := virt_vbt_generation_fields L h v
  simp only [vbt_fields, List.forall_mem_cons, List.not_mem_nil, false_imp_iff, implies_true,
    and_true] at F
  obtain ⟨-, -, -, -, -, fhh, fvs, fbo, -, fhs, fbs, -, -, -, f2s, fcd, -⟩ := F
  simp only [rd]
  rw [fhh, fvs, fbo, fhs, fbs, f2s, fcd]
  refine ⟨?_, rfl, rfl, rfl, ?_, rfl⟩
  · simp only [vbt.sizeof, vbt.driver_features, vbt.driver_features_header, vbt.child3,
      vbt.child2, vbt.child1, vbt.child0, vbt.general_definitions,
      vbt.general_definitions_header, vbt.general_features, vbt.general_features_header,
      vbt.bdb_header, vbt.header]
    omega
  · simp [vbt.bdb_header, vbt.header]

/-- Witness for C2: the size members of the blob generated for `vbt198`. -/
theorem virt_vbt_generation_header_sizes_witness :
    vbt198.WF ∧
    rd (virt_vbt_generation vbt198 (fun _ => 0x5A)) 0 vbt198.vbt_header_vbt_size
        + rd (virt_vbt_generation vbt198 (fun _ => 0x5A)) 0 vbt198.vbt_header_header_size
      = 263 :=
  ⟨by decide, (virt_vbt_generation_header_sizes vbt198 (by decide) (fun _ => 0x5A)).1⟩

/-- Claim C3. The blob built by `virt_vbt_generation` declares exactly four
child device records: `(general_definitions_header.size -
sizeof(struct bdb_general_definitions)) / general_definitions.child_dev_size`
is 4 with remainder 0. The records `child0` .. `child3` all have
`device_type == DEVICE_TYPE_DP`; their `dvo_port` values are `DVO_PORT_DPA`,
`DVO_PORT_DPB`, `DVO_PORT_DPC`, `DVO_PORT_DPD` and pairwise distinct; their
`aux_channel` values are `DP_AUX_A` .. `DP_AUX_D`; their `handle` values are
`0x04, 0x40, 0x20, 0x10`, pairwise distinct single-bit masks. -/
theorem virt_vbt_generation_child_devices (L : VbtDefs) (h : L.WF)
    (hp : L.dvo_ports_distinct) (v : Mem) :
    ((rd (virt_vbt_generation L v) (vbt.general_definitions_header L) bdb_data_header_size
          - L.sizeof_bdb_general_definitions)
        / rd (virt_vbt_generation L v) (vbt.general_definitions L) L.child_dev_size = 4
      ∧ (rd (virt_vbt_generation L v) (vbt.general_definitions_header L) bdb_data_header_size
          - L.sizeof_bdb_general_definitions)
        % rd (virt_vbt_generation L v) (vbt.general_definitions L) L.child_dev_size = 0)
    ∧ [vbt.child0 L, vbt.child1 L, vbt.child2 L, vbt.child3 L].map
          (fun c => rd (virt_vbt_generation L v) c L.device_type)
        = [L.DEVICE_TYPE_DP, L.DEVICE_TYPE_DP, L.DEVICE_TYPE_DP, L.DEVICE_TYPE_DP]
    ∧ ([vbt.child0 L, vbt.child1 L, vbt.child2 L, vbt.child3 L].map
          (fun c => rd (virt_vbt_generation L v) c L.dvo_port)
        = [L.DVO_PORT_DPA, L.DVO_PORT_DPB, L.DVO_PORT_DPC, L.DVO_PORT_DPD]
      ∧ ([vbt.child0 L, vbt.child1 L, vbt.child2 L, vbt.child3 L].map
          (fun c => rd (virt_vbt_generation L v) c L.dvo_port)).Nodup)
    ∧ [vbt.child0 L, vbt.child1 L, vbt.child2 L, vbt.child3 L].map
          (fun c => rd (virt_vbt_generation L v) c L.aux_channel)
        = [L.DP_AUX_A, L.DP_AUX_B, L.DP_AUX_C, L.DP_AUX_D]
    ∧ ([vbt.child0 L, vbt.child1 L, vbt.child2 L, vbt.child3 L].map
          (fun c => rd (virt_vbt_generation L v) c L.handle) = [0x04, 0x40, 0x20, 0x10]
      ∧ ([vbt.child0 L, vbt.child1 L, vbt.child2 L, vbt.child3 L].map
          (fun c => rd (virt_vbt_generation L v) c L.handle)).Nodup
      ∧ ∀ x ∈ [vbt.child0 L, vbt.child1 L, vbt.child2 L, vbt.child3 L].map
          (fun c => rd (virt_vbt_generation L v) c L.handle), single_bit x) := by
  have F := virt_vbt_generation_fields L h v
  simp only [vbt_fields, List.forall_mem_cons, List.not_mem_nil, false_imp_iff, implies_true,
    and_true] at F
  obtain ⟨-, -, -, -, -, -, -, -, -, -, -, -, -, -, f2s, fcd, a0, a1, a2, a3, b0, b1, b2, b3,
    c0, c1, c2, c3, d0, d1, d2, d3, -⟩ := F
  simp only [rd, List.map_cons, List.map_nil]
  rw [f2s, fcd, a0, a1, a2, a3, b0, b1, b2, b3, c0, c1, c2, c3, d0, d1, d2, d3]
  refine ⟨⟨?_, ?_⟩, rfl, ⟨rfl, hp⟩, rfl, rfl, by decide, by decide⟩
  · simp [DEV_SIZE]
  · simp [DEV_SIZE]

/-- Witness for C3: the DVO ports of the four records generated for
`vbt198`. -/
theorem virt_vbt_generation_child_devices_witness :
    vbt198.WF ∧ vbt198.dvo_ports_distinct ∧
    [86, 124, 162, 200].map (fun c => rd (virt_vbt_generation vbt198 (fun _ => 0xFF)) c
        vbt198.dvo_port) = [10, 7, 8, 9] :=
  ⟨by decide, by decide,
    (virt_vbt_generation_child_devices vbt198 (by decide) (by decide) (fun _ => 0xFF)).2.2.1.1⟩


/-! ## SWSCI request handling -/

theorem le_bytes_zero_getD (w k : Nat) : (le_bytes w 0).getD k 0 = 0 := by
  induction w generalizing k with
  | zero => simp [le_bytes]
  | succ w ih =>
    cases k with
    | zero => simp [le_bytes]
    | succ k => simpa [le_bytes] using ih k

theorem store_zero_apply (m : Mem) (a w i : Nat) :
    store m a w 0 i = if a ≤ i ∧ i < a + w then 0 else m i := by
  unfold store wbytes
  rw [le_bytes_length, le_bytes_zero_getD]

theorem store_outside (m : Mem) (a w v i : Nat) (h : i < a ∨ a + w ≤ i) :
    store m a w v i = m i := by
  unfold store
  exact wbytes_outside m a _ i (by rw [le_bytes_length]; exact h)

theorem load_eq_zero (m : Mem) (a n : Nat) (h : ∀ i, a ≤ i → i < a + n → m i = 0) :
    load m a n = 0 := by
  unfold load
  induction n generalizing a with
  | zero => rfl
  | succ n ih =>
    simp only [rbytes, le_val]
    rw [h a (le_refl a) (by omega), ih (a + 1) (fun i h1 h2 => h i (by omega) (by omega))]

theorem querying_capabilities_iff (D : GvtDefs) (s : Nat) :
    querying_capabilities D s = true
      ↔ (GVT_OPREGION_FUNC D s, GVT_OPREGION_SUBFUNC D s) ∈ capability_pairs D := by
  simp [querying_capabilities, capability_pairs]

theorem emulate_not_selected (fname sname : Nat → String) (D : GvtDefs) (vgpu : intel_vgpu)
    (mem : Mem) (swsci : Nat) (hsel : swsci &&& D.SWSCI_SCI_SELECT = 0) :
    emulate_opregion_request fname sname D vgpu mem swsci
      = some ⟨0, vgpu, mem, ["requesting SMI service\n"]⟩ := by
  simp only [emulate_opregion_request, if_pos hsel]

theorem emulate_no_edge (fname sname : Nat → String) (D : GvtDefs) (vgpu : intel_vgpu)
    (mem : Mem) (swsci : Nat) (hsel : swsci &&& D.SWSCI_SCI_SELECT ≠ 0)
    (hedge : load vgpu.cfg_space D.INTEL_GVT_PCI_SWSCI 1 &&& D.SWSCI_SCI_TRIGGER ≠ 0
      ∨ swsci &&& D.SWSCI_SCI_TRIGGER = 0) :
    emulate_opregion_request fname sname D vgpu mem swsci = some ⟨0, vgpu, mem, []⟩ := by
  simp only [emulate_opregion_request, if_neg hsel, if_pos hedge]

theorem emulate_capability (fname sname : Nat → String) (D : GvtDefs) (vgpu : intel_vgpu)
    (mem : Mem) (swsci : Nat) (hmapped : vgpu.va ≠ NULL)
    (hsel : swsci &&& D.SWSCI_SCI_SELECT ≠ 0)
    (htrig : swsci &&& D.SWSCI_SCI_TRIGGER ≠ 0)
    (hprev : load vgpu.cfg_space D.INTEL_GVT_PCI_SWSCI 1 &&& D.SWSCI_SCI_TRIGGER = 0)
    (hq : querying_capabilities D (SCIC D vgpu mem) = true) :
    emulate_opregion_request fname sname D vgpu mem swsci
      = some ⟨0, vgpu,
          store (store mem (vgpu.va + D.INTEL_GVT_OPREGION_SCIC) 4 0)
            (vgpu.va + D.INTEL_GVT_OPREGION_PARM) 4 0, []⟩ := by
  have hedge : ¬ (load vgpu.cfg_space D.INTEL_GVT_PCI_SWSCI 1 &&& D.SWSCI_SCI_TRIGGER ≠ 0
      ∨ swsci &&& D.SWSCI_SCI_TRIGGER = 0) := by
    rintro (h | h)
    · exact h hprev
    · exact htrig h
  simp only [SCIC] at hq
  simp only [emulate_opregion_request, if_neg hsel, if_neg hedge, if_neg hmapped, hq,
    not_true_eq_false, if_false]

theorem emulate_unsupported (fname sname : Nat → String) (D : GvtDefs) (vgpu : intel_vgpu)
    (mem : Mem) (swsci : Nat) (hmapped : vgpu.va ≠ NULL)
    (hsel : swsci &&& D.SWSCI_SCI_SELECT ≠ 0)
    (htrig : swsci &&& D.SWSCI_SCI_TRIGGER ≠ 0)
    (hprev : load vgpu.cfg_space D.INTEL_GVT_PCI_SWSCI 1 &&& D.SWSCI_SCI_TRIGGER = 0)
    (hq : querying_capabilities D (SCIC D vgpu mem) = false) :
    emulate_opregion_request fname sname D vgpu mem swsci
      = some ⟨0, vgpu,
          store mem (vgpu.va + D.INTEL_GVT_OPREGION_SCIC) 4
            (SCIC D vgpu mem &&& bnot32 D.OPREGION_SCIC_EXIT_MASK),
          ["requesting runtime service: func \"" ++ fname (GVT_OPREGION_FUNC D (SCIC D vgpu mem))
            ++ "\", subfunc \"" ++ sname (GVT_OPREGION_SUBFUNC D (SCIC D vgpu mem))
            ++ "\"\n"]⟩ := by
  have hedge : ¬ (load vgpu.cfg_space D.INTEL_GVT_PCI_SWSCI 1 &&& D.SWSCI_SCI_TRIGGER ≠ 0
      ∨ swsci &&& D.SWSCI_SCI_TRIGGER = 0) := by
    rintro (h | h)
    · exact h hprev
    · exact htrig h
  simp only [SCIC] at hq ⊢
  simp only [emulate_opregion_request, if_neg hsel, if_neg hedge, if_neg hmapped, hq,
    Bool.false_eq_true, not_false_eq_true, if_true]

/-- Claim C4. Capability query: when the OpRegion is mapped, the written
`swsci` has `SWSCI_SCI_SELECT` and `SWSCI_SCI_TRIGGER` set, the
configuration-space byte at `INTEL_GVT_PCI_SWSCI` has `SWSCI_SCI_TRIGGER`
clear, and the (function, sub-function) decoded from `SCIC` is
GETBIOSDATA/SUPPRTEDCALLS, GETBIOSDATA/REQEUSTEDCALLBACKS or
GETBIOSCALLBACKS/SUPPRTEDCALLS, then for every `PARM`
`intel_vgpu_emulate_opregion_request` returns 0 and leaves `SCIC == 0` and
`PARM == 0`. -/
theorem emulate_request_capability_query (D : GvtDefs) (vgpu : intel_vgpu) (mem : Mem) (swsci : Nat)
    (hmapped : vgpu.va ≠ NULL)
    (hsel : swsci &&& D.SWSCI_SCI_SELECT ≠ 0)
    (htrig : swsci &&& D.SWSCI_SCI_TRIGGER ≠ 0)
    (hprev : load vgpu.cfg_space D.INTEL_GVT_PCI_SWSCI 1 &&& D.SWSCI_SCI_TRIGGER = 0)
    (hq : (GVT_OPREGION_FUNC D (SCIC D vgpu mem), GVT_OPREGION_SUBFUNC D (SCIC D vgpu mem))
      ∈ capability_pairs D) :
    ∃ r, intel_vgpu_emulate_opregion_request D vgpu mem swsci = some r
      ∧ r.ret = 0 ∧ SCIC D r.vgpu r.mem = 0 ∧ PARM D r.vgpu r.mem = 0 := by
  have hq' := (querying_capabilities_iff D _).2 hq
  refine ⟨_, emulate_capability _ _ D vgpu mem swsci hmapped hsel htrig hprev hq', rfl, ?_, ?_⟩
  · dsimp only [SCIC]
    apply load_eq_zero
    intro i h1 h2
    simp only [store_zero_apply]
    split_ifs <;> first | rfl | omega
  · dsimp only [PARM]
    rw [load_store_same]
    rfl

/-- Witness for C4: `SCIC = 0x08` encodes function 4, sub-function 0. -/
theorem emulate_request_capability_query_witness :
    (GVT_OPREGION_FUNC gvt_defs (SCIC gvt_defs sample_vgpu (sample_mem 0x08)),
      GVT_OPREGION_SUBFUNC gvt_defs (SCIC gvt_defs sample_vgpu (sample_mem 0x08))) = (4, 0) ∧
    (intel_vgpu_emulate_opregion_request gvt_defs sample_vgpu (sample_mem 0x08) 0x8001).map
        (fun r => (r.ret, SCIC gvt_defs r.vgpu r.mem, PARM gvt_defs r.vgpu r.mem))
      = some (0, 0, 0) := by
  refine ⟨by decide, ?_⟩
  obtain ⟨r, hr, h1, h2, h3⟩ := emulate_request_capability_query gvt_defs sample_vgpu
    (sample_mem 0x08) 0x8001 (by decide) (by decide) (by decide) (by decide) (by decide)
  rw [hr, Option.map_some', h1, h2, h3]

/-- Claim C5. Unsupported request: when the OpRegion is mapped, `swsci` has
`SWSCI_SCI_SELECT` and `SWSCI_SCI_TRIGGER` set, the previous trigger bit is
clear and the (function, sub-function) decoded from the `SCIC` value `s` is
none of the three capability pairs, `intel_vgpu_emulate_opregion_request`
returns 0, leaves `SCIC == s & ~OPREGION_SCIC_EXIT_MASK` (every exit-status
bit zero, every other bit as in `s`) and leaves `PARM` unchanged. -/
theorem emulate_request_unsupported (D : GvtDefs) (vgpu : intel_vgpu) (mem : Mem) (swsci : Nat)
    (hregs : D.regs_disjoint) (hmapped : vgpu.va ≠ NULL)
    (hsel : swsci &&& D.SWSCI_SCI_SELECT ≠ 0)
    (htrig : swsci &&& D.SWSCI_SCI_TRIGGER ≠ 0)
    (hprev : load vgpu.cfg_space D.INTEL_GVT_PCI_SWSCI 1 &&& D.SWSCI_SCI_TRIGGER = 0)
    (hq : (GVT_OPREGION_FUNC D (SCIC D vgpu mem), GVT_OPREGION_SUBFUNC D (SCIC D vgpu mem))
      ∉ capability_pairs D) :
    ∃ r, intel_vgpu_emulate_opregion_request D vgpu mem swsci = some r
      ∧ r.ret = 0
      ∧ SCIC D r.vgpu r.mem = SCIC D vgpu mem &&& bnot32 D.OPREGION_SCIC_EXIT_MASK
      ∧ (∀ i, (SCIC D r.vgpu r.mem).testBit i
          = ((SCIC D vgpu mem).testBit i && !D.OPREGION_SCIC_EXIT_MASK.testBit i))
      ∧ PARM D r.vgpu r.mem = PARM D vgpu mem := by
  have hq' : querying_capabilities D (SCIC D vgpu mem) = false := by
    rw [← Bool.not_eq_true, querying_capabilities_iff]; exact hq
  have hs : SCIC D vgpu mem < 2 ^ 32 := load_lt mem _ 4
  have hnew : load (store mem (vgpu.va + D.INTEL_GVT_OPREGION_SCIC) 4
        (SCIC D vgpu mem &&& bnot32 D.OPREGION_SCIC_EXIT_MASK))
      (vgpu.va + D.INTEL_GVT_OPREGION_SCIC) 4
        = SCIC D vgpu mem &&& bnot32 D.OPREGION_SCIC_EXIT_MASK := by
    rw [load_store_same]
    apply Nat.mod_eq_of_lt
    exact lt_of_le_of_lt Nat.and_le_left hs
  refine ⟨_, emulate_unsupported _ _ D vgpu mem swsci hmapped hsel htrig hprev hq', rfl,
    hnew, ?_, ?_⟩
  · intro i
    show (load _ _ 4).testBit i = _
    rw [hnew, Nat.testBit_and]
    unfold bnot32
    have hm : D.OPREGION_SCIC_EXIT_MASK % 2 ^ 32 < 2 ^ 32 := Nat.mod_lt _ (by norm_num)
    rw [show 2 ^ 32 - 1 - D.OPREGION_SCIC_EXIT_MASK % 2 ^ 32
        = 2 ^ 32 - (D.OPREGION_SCIC_EXIT_MASK % 2 ^ 32 + 1) by omega,
      Nat.testBit_two_pow_sub_succ hm, Nat.testBit_mod_two_pow]
    by_cases hi : i < 32
    · simp [hi]
    · have : (SCIC D vgpu mem).testBit i = false :=
        Nat.testBit_lt_two_pow (lt_of_lt_of_le hs (Nat.pow_le_pow_right (by norm_num)
          (by omega)))
      simp [this]
  · dsimp only [PARM]
    apply load_store_disj
    unfold GvtDefs.regs_disjoint at hregs
    omega

/-- Witness for C5: `SCIC = 0x5ec` encodes function 6, sub-function 5 with
the exit-status bits set; afterwards `SCIC = 0x50c`, `PARM` is untouched. -/
theorem emulate_request_unsupported_witness :
    (GVT_OPREGION_FUNC gvt_defs (SCIC gvt_defs sample_vgpu (sample_mem 0x5ec)),
      GVT_OPREGION_SUBFUNC gvt_defs (SCIC gvt_defs sample_vgpu (sample_mem 0x5ec))) = (6, 5) ∧
    (intel_vgpu_emulate_opregion_request gvt_defs sample_vgpu (sample_mem 0x5ec) 0x8001).map
        (fun r => (r.ret, SCIC gvt_defs r.vgpu r.mem, PARM gvt_defs r.vgpu r.mem))
      = some (0, 0x50c, 0x1234) := by
  refine ⟨by decide, ?_⟩
  obtain ⟨r, hr, h1, h2, -, h3⟩ := emulate_request_unsupported gvt_defs sample_vgpu
    (sample_mem 0x5ec) 0x8001 (by decide) (by decide) (by decide) (by decide) (by decide)
    (by decide)
  rw [hr, Option.map_some', h1, h2, h3]
  decide

/-- Claim C6. Edge detection: if the trigger bit recorded in the
configuration space is set, or the written `swsci` has `SWSCI_SCI_TRIGGER`
clear, `intel_vgpu_emulate_opregion_request` returns 0 and `SCIC` and `PARM`
(indeed all of memory) are unchanged; conversely, when the call changes
`SCIC` or `PARM`, the previous bit was 0 and the new bit is 1. -/
theorem emulate_request_edge_detection (D : GvtDefs) (vgpu : intel_vgpu) (mem : Mem) (swsci : Nat) :
    (load vgpu.cfg_space D.INTEL_GVT_PCI_SWSCI 1 &&& D.SWSCI_SCI_TRIGGER ≠ 0
        ∨ swsci &&& D.SWSCI_SCI_TRIGGER = 0 →
      ∃ r, intel_vgpu_emulate_opregion_request D vgpu mem swsci = some r
        ∧ r.ret = 0 ∧ r.mem = mem
        ∧ SCIC D r.vgpu r.mem = SCIC D vgpu mem ∧ PARM D r.vgpu r.mem = PARM D vgpu mem)
    ∧ (∀ r, intel_vgpu_emulate_opregion_request D vgpu mem swsci = some r →
        SCIC D r.vgpu r.mem ≠ SCIC D vgpu mem ∨ PARM D r.vgpu r.mem ≠ PARM D vgpu mem →
        load vgpu.cfg_space D.INTEL_GVT_PCI_SWSCI 1 &&& D.SWSCI_SCI_TRIGGER = 0
          ∧ swsci &&& D.SWSCI_SCI_TRIGGER ≠ 0) := by
  have key : load vgpu.cfg_space D.INTEL_GVT_PCI_SWSCI 1 &&& D.SWSCI_SCI_TRIGGER ≠ 0
        ∨ swsci &&& D.SWSCI_SCI_TRIGGER = 0 →
      ∃ r, intel_vgpu_emulate_opregion_request D vgpu mem swsci = some r
        ∧ r.ret = 0 ∧ r.mem = mem
        ∧ SCIC D r.vgpu r.mem = SCIC D vgpu mem ∧ PARM D r.vgpu r.mem = PARM D vgpu mem := by
    intro hedge
    by_cases hsel : swsci &&& D.SWSCI_SCI_SELECT = 0
    · exact ⟨_, emulate_not_selected _ _ D vgpu mem swsci hsel, rfl, rfl, rfl, rfl⟩
    · exact ⟨_, emulate_no_edge _ _ D vgpu mem swsci hsel hedge, rfl, rfl, rfl, rfl⟩
  refine ⟨key, ?_⟩
  intro r hr hchg
  by_contra hcon
  have hedge : load vgpu.cfg_space D.INTEL_GVT_PCI_SWSCI 1 &&& D.SWSCI_SCI_TRIGGER ≠ 0
        ∨ swsci &&& D.SWSCI_SCI_TRIGGER = 0 := by
    by_cases h1 : load vgpu.cfg_space D.INTEL_GVT_PCI_SWSCI 1 &&& D.SWSCI_SCI_TRIGGER = 0
    · right
      by_contra h2
      exact hcon ⟨h1, h2⟩
    · exact Or.inl h1
  obtain ⟨r', hr', -, -, hs, hp⟩ := key hedge
  rw [hr] at hr'
  cases hr'
  rcases hchg with h | h
  · exact h hs
  · exact h hp

/-- Witness for C6: a capability query written while the trigger bit is
already set changes nothing. -/
theorem emulate_request_edge_detection_witness :
    (intel_vgpu_emulate_opregion_request gvt_defs sample_vgpu_triggered (sample_mem 0x08)
        0x8001).map
        (fun r => (r.ret, SCIC gvt_defs r.vgpu r.mem, PARM gvt_defs r.vgpu r.mem))
      = some (0, 0x08, 0x1234) := by
  obtain ⟨r, hr, h1, -, h2, h3⟩ := (emulate_request_edge_detection gvt_defs
    sample_vgpu_triggered (sample_mem 0x08) 0x8001).1 (Or.inl (by decide))
  rw [hr, Option.map_some', h1, h2, h3]
  decide

/-- Claim C7. SCI not selected: when `swsci` has `SWSCI_SCI_SELECT` clear,
whatever the trigger bits, the configuration-space byte and the contents of
`SCIC` and `PARM`, `intel_vgpu_emulate_opregion_request` returns 0 and leaves
`SCIC` and `PARM` (indeed all of memory and the vGPU) unchanged. -/
theorem emulate_request_sci_not_selected (D : GvtDefs) (vgpu : intel_vgpu) (mem : Mem) (swsci : Nat)
    (hsel : swsci &&& D.SWSCI_SCI_SELECT = 0) :
    ∃ r, intel_vgpu_emulate_opregion_request D vgpu mem swsci = some r
      ∧ r.ret = 0 ∧ r.mem = mem ∧ r.vgpu = vgpu
      ∧ SCIC D r.vgpu r.mem = SCIC D vgpu mem ∧ PARM D r.vgpu r.mem = PARM D vgpu mem :=
  ⟨_, emulate_not_selected _ _ D vgpu mem swsci hsel, rfl, rfl, rfl, rfl, rfl⟩

/-- Witness for C7: `swsci = 0x0001` does not select SCI. -/
theorem emulate_request_sci_not_selected_witness :
    (0x0001 : Nat) &&& gvt_defs.SWSCI_SCI_SELECT = 0 ∧
    (intel_vgpu_emulate_opregion_request gvt_defs sample_vgpu (sample_mem 0x08) 0x0001).map
        (fun r => (r.ret, SCIC gvt_defs r.vgpu r.mem, PARM gvt_defs r.vgpu r.mem))
      = some (0, 0x08, 0x1234) := by
  refine ⟨by decide, ?_⟩
  obtain ⟨r, hr, h1, -, -, h2, h3⟩ := emulate_request_sci_not_selected gvt_defs sample_vgpu
    (sample_mem 0x08) 0x0001 (by decide)
  rw [hr, Option.map_some', h1, h2, h3]
  decide

/-- Claim C8. Dispatch is governed by the three-pair whitelist alone:
`querying_capabilities(s)` holds exactly when
`(GVT_OPREGION_FUNC(s), GVT_OPREGION_SUBFUNC(s))` is one of the three pairs;
two `SCIC` values that agree under `OPREGION_SCIC_FUNC_MASK` and
`OPREGION_SCIC_SUBFUNC_MASK` are dispatched alike; and whatever labels the
naming functions return in place of those of `opregion_func_name` and
`opregion_subfunc_name`, the return value, the vGPU and memory (hence `SCIC`
and `PARM`) come out the same. -/
theorem querying_capabilities_whitelist (D : GvtDefs) :
    (∀ s, querying_capabilities D s = true
        ↔ (GVT_OPREGION_FUNC D s, GVT_OPREGION_SUBFUNC D s) ∈ capability_pairs D)
    ∧ (∀ s t, s &&& D.OPREGION_SCIC_FUNC_MASK = t &&& D.OPREGION_SCIC_FUNC_MASK →
        s &&& D.OPREGION_SCIC_SUBFUNC_MASK = t &&& D.OPREGION_SCIC_SUBFUNC_MASK →
        querying_capabilities D s = querying_capabilities D t)
    ∧ (∀ (fname sname : Nat → String) (vgpu : intel_vgpu) (mem : Mem) (swsci : Nat),
        (emulate_opregion_request fname sname D vgpu mem swsci).map
            (fun r => (r.ret, r.vgpu, r.mem))
          = (intel_vgpu_emulate_opregion_request D vgpu mem swsci).map
            (fun r => (r.ret, r.vgpu, r.mem))) := by
  refine ⟨querying_capabilities_iff D, ?_, ?_⟩
  · intro s t hf hs
    simp only [querying_capabilities, GVT_OPREGION_FUNC, GVT_OPREGION_SUBFUNC, hf, hs]
  · intro fname sname vgpu mem swsci
    simp only [intel_vgpu_emulate_opregion_request, emulate_opregion_request]
    split_ifs <;> rfl

/-- Witness for C8: `0x08` and `0x100e9` agree under both masks. -/
theorem querying_capabilities_whitelist_witness :
    querying_capabilities gvt_defs 0x08 = querying_capabilities gvt_defs 0x100e9 :=
  (querying_capabilities_whitelist gvt_defs).2.1 0x08 0x100e9 (by decide) (by decide)

/-- Claim C9. With the OpRegion mapped, `intel_vgpu_emulate_opregion_request`
returns 0 for every `swsci`, configuration space and memory content; the
vGPU (configuration space included) is left as it was and every byte outside
the 4-byte `SCIC` word and the 4-byte `PARM` word keeps its value. -/
theorem emulate_request_always_succeeds (D : GvtDefs) (vgpu : intel_vgpu) (mem : Mem) (swsci : Nat)
    (hmapped : vgpu.va ≠ NULL) :
    ∃ r, intel_vgpu_emulate_opregion_request D vgpu mem swsci = some r
      ∧ r.ret = 0 ∧ r.vgpu = vgpu
      ∧ ∀ a, ¬ (vgpu.va + D.INTEL_GVT_OPREGION_SCIC ≤ a
                ∧ a < vgpu.va + D.INTEL_GVT_OPREGION_SCIC + 4) →
             ¬ (vgpu.va + D.INTEL_GVT_OPREGION_PARM ≤ a
                ∧ a < vgpu.va + D.INTEL_GVT_OPREGION_PARM + 4) →
             r.mem a = mem a := by
  by_cases hsel : swsci &&& D.SWSCI_SCI_SELECT = 0
  · exact ⟨_, emulate_not_selected _ _ D vgpu mem swsci hsel, rfl, rfl, fun _ _ _ => rfl⟩
  by_cases hedge : load vgpu.cfg_space D.INTEL_GVT_PCI_SWSCI 1 &&& D.SWSCI_SCI_TRIGGER ≠ 0
      ∨ swsci &&& D.SWSCI_SCI_TRIGGER = 0
  · exact ⟨_, emulate_no_edge _ _ D vgpu mem swsci hsel hedge, rfl, rfl, fun _ _ _ => rfl⟩
  have hprev : load vgpu.cfg_space D.INTEL_GVT_PCI_SWSCI 1 &&& D.SWSCI_SCI_TRIGGER = 0 := by
    by_contra h; exact hedge (Or.inl h)
  have htrig : swsci &&& D.SWSCI_SCI_TRIGGER ≠ 0 := fun h => hedge (Or.inr h)
  cases hq : querying_capabilities D (SCIC D vgpu mem)
  · refine ⟨_, emulate_unsupported _ _ D vgpu mem swsci hmapped hsel htrig hprev hq, rfl, rfl,
      ?_⟩
    intro a h1 _
    exact store_outside _ _ _ _ _ (by omega)
  · refine ⟨_, emulate_capability _ _ D vgpu mem swsci hmapped hsel htrig hprev hq, rfl, rfl,
      ?_⟩
    intro a h1 h2
    dsimp only
    rw [store_outside _ _ _ _ _ (by omega), store_outside _ _ _ _ _ (by omega)]

/-- Witness for C9: an unsupported request on the sample vGPU returns 0 and
the bytes around the `SCIC` and `PARM` words keep their values. -/
theorem emulate_request_always_succeeds_witness :
    (intel_vgpu_emulate_opregion_request gvt_defs sample_vgpu (sample_mem 0x5ec) 0x8001).map
        (fun r => (r.ret, r.mem 0x10000, r.mem 0x101ac, r.mem 0x101ff, r.mem 0x10208,
          r.mem 0x10400))
      = some (0, 3, 4, 3, 5, 5) := by
  obtain ⟨r, hr, h1, -, h2⟩ := emulate_request_always_succeeds gvt_defs sample_vgpu
    (sample_mem 0x5ec) 0x8001 (by decide)
  rw [hr, Option.map_some', h1, h2 0x10000 (by decide) (by decide),
    h2 0x101ac (by decide) (by decide), h2 0x101ff (by decide) (by decide),
    h2 0x10208 (by decide) (by decide), h2 0x10400 (by decide) (by decide)]
  decide

/-! ## Attaching the OpRegion to a vGPU -/

/-- Claim C10, amended. For a guest whose `vgpu_opregion(vgpu)->va` is
non-null and every `gpa`, `intel_vgpu_init_opregion` returns `-EINVAL` when
the hypervisor type is `INTEL_GVT_HYPERVISOR_XEN` and 0 otherwise; in both
cases the vGPU (`va` and `gfn[]`) and the host buffer pointer are unchanged
and nothing but log lines is emitted: no translation and no map call. -/
theorem init_opregion_reattach (D : GvtDefs) (H : Mpt) (s : Host) (gpa : Nat)
    (hE : D.EINVAL ≠ 0) (hva : s.vgpu.va ≠ NULL) :
    (intel_vgpu_init_opregion D H s gpa).1
        = (if s.hypervisor_type = D.INTEL_GVT_HYPERVISOR_XEN then -D.EINVAL else 0)
    ∧ (intel_vgpu_init_opregion D H s gpa).2.vgpu = s.vgpu
    ∧ (intel_vgpu_init_opregion D H s gpa).2.opregion_va = s.opregion_va
    ∧ ∃ msgs : List String,
        (intel_vgpu_init_opregion D H s gpa).2.trace = s.trace ++ msgs.map Event.log := by
  have hE' : -D.EINVAL ≠ 0 := by omega
  by_cases hx : s.hypervisor_type = D.INTEL_GVT_HYPERVISOR_XEN
  · simp only [intel_vgpu_init_opregion, init_vgpu_opregion, hx, if_true, if_pos hva, hE',
      ne_eq, not_false_eq_true, true_and]
    exact ⟨["vgpu%d: init vgpu opregion\n", "emulate opregion from kernel\n",
      "vgpu%d: opregion has been initialized already.\n"], by simp⟩
  · simp only [intel_vgpu_init_opregion, hx, if_false, true_and]
    exact ⟨["vgpu%d: init vgpu opregion\n"], by simp⟩

/-- Witness for C10: re-attach of the sample vGPU under Xen. -/
theorem init_opregion_reattach_witness :
    (intel_vgpu_init_opregion gvt_defs sample_mpt (sample_host 0) 0x3000).1 = -22
    ∧ (intel_vgpu_init_opregion gvt_defs sample_mpt (sample_host 0) 0x3000).2.vgpu
        = sample_vgpu :=
  ⟨(init_opregion_reattach gvt_defs sample_mpt (sample_host 0) 0x3000 (by decide) (by decide)).1,
   (init_opregion_reattach gvt_defs sample_mpt (sample_host 0) 0x3000 (by decide) (by decide)).2.1⟩

/-- Counterexample to C10 as stated: under a hypervisor type other than Xen
an already attached guest gets 0, not `-EINVAL`. -/
theorem init_opregion_reattach_not_rejected :
    (sample_host 1).vgpu.va ≠ NULL
    ∧ (intel_vgpu_init_opregion gvt_defs sample_mpt (sample_host 1) 0x3000).1 = 0
    ∧ (intel_vgpu_init_opregion gvt_defs sample_mpt (sample_host 1) 0x3000).1
        ≠ -gvt_defs.EINVAL := by
  decide

/-! ## The attach loops -/

theorem init_vgpu_opregion_loop_apply (D : GvtDefs) (gpa n i : Nat) (gfn : Nat → Nat)
    (j : Nat) :
    init_vgpu_opregion_loop D gpa n i gfn j
      = if i ≤ j ∧ j < i + n then u32 ((gpa >>> D.PAGE_SHIFT) + j) else gfn j := by
  induction n generalizing i gfn with
  | zero =>
    simp only [init_vgpu_opregion_loop]
    rw [if_neg (by omega)]
  | succ n ih =>
    simp only [init_vgpu_opregion_loop, ih]
    by_cases h1 : i + 1 ≤ j ∧ j < i + 1 + n
    · rw [if_pos h1, if_pos (by omega)]
    · rw [if_neg h1]
      by_cases h2 : j = i
      · subst h2
        rw [if_pos (by omega), Function.update_same]
      · rw [if_neg (by omega), Function.update_noteq h2]

theorem map_vgpu_opregion_loop_steps (D : GvtDefs) (H : Mpt) (vgpu : intel_vgpu)
    (map : Bool) (k n i : Nat) (tr : List Event)
    (hok : ∀ j, i ≤ j → j < i + k → page_ok D H vgpu map j) :
    map_vgpu_opregion_loop D H vgpu map (k + n) i tr
      = map_vgpu_opregion_loop D H vgpu map n (i + k)
          (tr ++ map_pages_events D H vgpu map i k) := by
  induction k generalizing i tr with
  | zero => simp [map_pages_events]
  | succ k ih =>
    have h0 := hok i (le_refl i) (by omega)
    rw [show k + 1 + n = (k + n) + 1 by omega]
    simp only [map_vgpu_opregion_loop, if_neg h0.1, h0.2, ne_eq, not_true_eq_false,
      if_false]
    rw [ih (i + 1) _ (fun j h1 h2 => hok j (by omega) (by omega))]
    simp only [map_pages_events, List.range'_succ, List.flatMap_cons, map_page_events,
      List.append_assoc, List.cons_append, List.nil_append, List.singleton_append]
    rw [show i + 1 + k = i + (k + 1) by omega]

theorem map_vgpu_opregion_loop_ok (D : GvtDefs) (H : Mpt) (vgpu : intel_vgpu)
    (map : Bool) (n : Nat) (tr : List Event)
    (hok : ∀ j, j < n → page_ok D H vgpu map j) :
    map_vgpu_opregion_loop D H vgpu map n 0 tr
      = (0, tr ++ map_pages_events D H vgpu map 0 n) := by
  have := map_vgpu_opregion_loop_steps D H vgpu map n 0 0 tr
    (fun j _ h2 => hok j (by omega))
  simpa [map_vgpu_opregion_loop] using this

theorem map_vgpu_opregion_loop_bad_page (D : GvtDefs) (H : Mpt) (vgpu : intel_vgpu)
    (map : Bool) (n k : Nat) (tr : List Event) (hk : k < n)
    (hok : ∀ j, j < k → page_ok D H vgpu map j)
    (hbad : H.virt_to_mfn (vgpu.va + k * D.PAGE_SIZE) = D.INTEL_GVT_INVALID_ADDR) :
    map_vgpu_opregion_loop D H vgpu map n 0 tr
      = (-D.EINVAL, tr ++ map_pages_events D H vgpu map 0 k
          ++ [Event.virt_to_mfn (vgpu.va + k * D.PAGE_SIZE),
              Event.log "fail to get MFN from VA\n"]) := by
  obtain ⟨m, rfl⟩ : ∃ m, n = k + (m + 1) := ⟨n - k - 1, by omega⟩
  rw [map_vgpu_opregion_loop_steps D H vgpu map k (m + 1) 0 tr
    (fun j _ h2 => hok j (by omega))]
  simp only [map_vgpu_opregion_loop, Nat.zero_add, hbad, if_true, List.append_assoc,
    List.cons_append, List.nil_append, List.singleton_append]

theorem map_vgpu_opregion_loop_bad_map (D : GvtDefs) (H : Mpt) (vgpu : intel_vgpu)
    (map : Bool) (n k : Nat) (tr : List Event) (e : Int) (hk : k < n)
    (hok : ∀ j, j < k → page_ok D H vgpu map j)
    (hmfn : H.virt_to_mfn (vgpu.va + k * D.PAGE_SIZE) ≠ D.INTEL_GVT_INVALID_ADDR)
    (he : e ≠ 0)
    (hbad : ∀ tr, H.map_gfn_to_mfn tr vgpu.id (vgpu.gfn k)
        (H.virt_to_mfn (vgpu.va + k * D.PAGE_SIZE)) 1 map = e) :
    map_vgpu_opregion_loop D H vgpu map n 0 tr
      = (e, tr ++ map_pages_events D H vgpu map 0 k
          ++ [Event.virt_to_mfn (vgpu.va + k * D.PAGE_SIZE),
              Event.map_gfn_to_mfn vgpu.id (vgpu.gfn k)
                (H.virt_to_mfn (vgpu.va + k * D.PAGE_SIZE)) 1 map,
              Event.log "fail to map GFN to MFN, errno: %d\n"]) := by
  obtain ⟨m, rfl⟩ : ∃ m, n = k + (m + 1) := ⟨n - k - 1, by omega⟩
  rw [map_vgpu_opregion_loop_steps D H vgpu map k (m + 1) 0 tr
    (fun j _ h2 => hok j (by omega))]
  simp only [map_vgpu_opregion_loop, Nat.zero_add, if_neg hmfn, hbad, ne_eq, he,
    not_false_eq_true, if_true, List.append_assoc, List.cons_append, List.nil_append,
    List.singleton_append]

/-- On Xen, with a null `va`, `intel_vgpu_init_opregion` is
`init_vgpu_opregion` followed by the map loop over the attached vGPU. -/
theorem intel_vgpu_init_opregion_xen_fresh (D : GvtDefs) (H : Mpt) (s : Host) (gpa : Nat)
    (hx : s.hypervisor_type = D.INTEL_GVT_HYPERVISOR_XEN) (hva : s.vgpu.va = NULL) :
    intel_vgpu_init_opregion D H s gpa
      = ((map_vgpu_opregion_loop D H (init_vgpu_opregion D s gpa).2.vgpu true
            D.INTEL_GVT_OPREGION_PAGES 0
            (s.trace ++ [Event.log "vgpu%d: init vgpu opregion\n",
              Event.log "emulate opregion from kernel\n"])).1,
         { s with
            vgpu := (init_vgpu_opregion D s gpa).2.vgpu
            trace := (map_vgpu_opregion_loop D H (init_vgpu_opregion D s gpa).2.vgpu true
              D.INTEL_GVT_OPREGION_PAGES 0
              (s.trace ++ [Event.log "vgpu%d: init vgpu opregion\n",
                Event.log "emulate opregion from kernel\n"])).2 }) := by
  simp only [intel_vgpu_init_opregion, init_vgpu_opregion, map_vgpu_opregion, hx, hva,
    if_true, ne_eq, not_true_eq_false, if_false, List.append_assoc, List.cons_append,
    List.nil_append, List.singleton_append]
  split_ifs <;> simp_all

theorem init_vgpu_opregion_fresh (D : GvtDefs) (s : Host) (gpa : Nat)
    (hva : s.vgpu.va = NULL) :
    (init_vgpu_opregion D s gpa).2.vgpu
      = { s.vgpu with
          va := s.opregion_va
          gfn := init_vgpu_opregion_loop D gpa D.INTEL_GVT_OPREGION_PAGES 0 s.vgpu.gfn } := by
  simp only [init_vgpu_opregion, hva, ne_eq, not_true_eq_false, if_false]

/-- Claim C15. Successful attach under Xen: with `va` initially null, a
32-bit `gpa`, no `u32` wrap-around and every translation and map call
succeeding, `intel_vgpu_init_opregion` returns 0, sets `va` to the shared
buffer `gvt->opregion.opregion_va`, sets `gfn[i] == (gpa >> PAGE_SHIFT) + i`
for every `i < INTEL_GVT_OPREGION_PAGES` (consecutive and increasing), and
issues, after its two debug lines, exactly one translation and one map call
per page, in index order, pairing `gfn[i]` with the frame of
`va + i * PAGE_SIZE`. -/
theorem init_opregion_xen_success (D : GvtDefs) (H : Mpt) (s : Host) (gpa : Nat)
    (hx : s.hypervisor_type = D.INTEL_GVT_HYPERVISOR_XEN) (hva : s.vgpu.va = NULL)
    (hgpa : gpa < 2 ^ 32) (hnw : D.gfn_no_wrap)
    (hmfn : ∀ i, i < D.INTEL_GVT_OPREGION_PAGES →
      H.virt_to_mfn (s.opregion_va + i * D.PAGE_SIZE) ≠ D.INTEL_GVT_INVALID_ADDR)
    (hmap : ∀ tr i, i < D.INTEL_GVT_OPREGION_PAGES →
      H.map_gfn_to_mfn tr s.vgpu.id ((gpa >>> D.PAGE_SHIFT) + i)
        (H.virt_to_mfn (s.opregion_va + i * D.PAGE_SIZE)) 1 true = 0) :
    (intel_vgpu_init_opregion D H s gpa).1 = 0
    ∧ (intel_vgpu_init_opregion D H s gpa).2.vgpu.va = s.opregion_va
    ∧ (∀ i, i < D.INTEL_GVT_OPREGION_PAGES →
        (intel_vgpu_init_opregion D H s gpa).2.vgpu.gfn i = (gpa >>> D.PAGE_SHIFT) + i)
    ∧ (∀ i, i + 1 < D.INTEL_GVT_OPREGION_PAGES →
        (intel_vgpu_init_opregion D H s gpa).2.vgpu.gfn (i + 1)
          = (intel_vgpu_init_opregion D H s gpa).2.vgpu.gfn i + 1)
    ∧ (intel_vgpu_init_opregion D H s gpa).2.trace
        = s.trace ++ [Event.log "vgpu%d: init vgpu opregion\n",
            Event.log "emulate opregion from kernel\n"]
          ++ (List.range' 0 D.INTEL_GVT_OPREGION_PAGES).flatMap (fun i =>
              [Event.virt_to_mfn (s.opregion_va + i * D.PAGE_SIZE),
               Event.map_gfn_to_mfn s.vgpu.id ((gpa >>> D.PAGE_SHIFT) + i)
                 (H.virt_to_mfn (s.opregion_va + i * D.PAGE_SIZE)) 1 true]) := by
  have hg : ∀ i, i < D.INTEL_GVT_OPREGION_PAGES →
      (init_vgpu_opregion D s gpa).2.vgpu.gfn i = (gpa >>> D.PAGE_SHIFT) + i := by
    intro i hi
    rw [init_vgpu_opregion_fresh D s gpa hva]
    simp only [init_vgpu_opregion_loop_apply]
    rw [if_pos (by omega)]
    unfold u32
    apply Nat.mod_eq_of_lt
    have h1 : gpa >>> D.PAGE_SHIFT ≤ (2 ^ 32 - 1) / 2 ^ D.PAGE_SHIFT := by
      rw [Nat.shiftRight_eq_div_pow]
      exact Nat.div_le_div_right (by omega)
    unfold GvtDefs.gfn_no_wrap at hnw
    omega
  have hv : (init_vgpu_opregion D s gpa).2.vgpu.va = s.opregion_va := by
    rw [init_vgpu_opregion_fresh D s gpa hva]
  have hi : (init_vgpu_opregion D s gpa).2.vgpu.id = s.vgpu.id := by
    rw [init_vgpu_opregion_fresh D s gpa hva]
  rw [intel_vgpu_init_opregion_xen_fresh D H s gpa hx hva,
    map_vgpu_opregion_loop_ok D H _ true _ _ (fun j hj => by
      unfold page_ok
      rw [hv, hi, hg j hj]
      exact ⟨hmfn j hj, fun tr => hmap tr j hj⟩)]
  refine ⟨rfl, hv, hg, ?_, ?_⟩
  · intro i h1
    show (init_vgpu_opregion D s gpa).2.vgpu.gfn (i + 1)
      = (init_vgpu_opregion D s gpa).2.vgpu.gfn i + 1
    rw [hg (i + 1) h1, hg i (by omega)]
    omega
  · show _ ++ map_pages_events D H (init_vgpu_opregion D s gpa).2.vgpu true 0 _ = _
    congr 1
    unfold map_pages_events
    apply List.flatMap_congr
    intro i hmem
    have hlt : i < D.INTEL_GVT_OPREGION_PAGES := by
      have := (List.mem_range'_1.1 hmem).2
      omega
    simp only [map_page_events, hv, hi, hg i hlt]

/-- Witness for C15: attach of the fresh sample vGPU at `gpa = 0x3000`. -/
theorem init_opregion_xen_success_witness :
    (intel_vgpu_init_opregion gvt_defs sample_mpt sample_host_fresh 0x3000).1 = 0
    ∧ (intel_vgpu_init_opregion gvt_defs sample_mpt sample_host_fresh 0x3000).2.vgpu.va
        = 0x20000
    ∧ (intel_vgpu_init_opregion gvt_defs sample_mpt sample_host_fresh 0x3000).2.trace
        = [Event.log "vgpu%d: init vgpu opregion\n",
            Event.log "emulate opregion from kernel\n",
            Event.virt_to_mfn 0x20000, Event.map_gfn_to_mfn 1 3 0x20 1 true,
            Event.virt_to_mfn 0x21000, Event.map_gfn_to_mfn 1 4 0x21 1 true] :=
  ⟨(init_opregion_xen_success gvt_defs sample_mpt sample_host_fresh 0x3000 rfl rfl
      (by decide) (by decide) (by decide) (fun _ _ _ => rfl)).1,
   (init_opregion_xen_success gvt_defs sample_mpt sample_host_fresh 0x3000 rfl rfl
      (by decide) (by decide) (by decide) (fun _ _ _ => rfl)).2.1,
   (init_opregion_xen_success gvt_defs sample_mpt sample_host_fresh 0x3000 rfl rfl
      (by decide) (by decide) (by decide) (fun _ _ _ => rfl)).2.2.2.2⟩

theorem map_pages_events_no_unmap (D : GvtDefs) (H : Mpt) (vgpu : intel_vgpu) (i n : Nat) :
    ∀ e ∈ map_pages_events D H vgpu true i n, e.is_unmap = false := by
  intro e he
  simp only [map_pages_events, List.mem_flatMap, map_page_events, List.mem_cons,
    List.mem_singleton, List.not_mem_nil, or_false] at he
  obtain ⟨j, -, rfl | rfl⟩ := he <;> rfl

/-- Claim C16. Partial mapping failure under Xen: when pages `0 .. k-1` of a
fresh attach translate and map without error and page `k` is the first to
fail, `intel_vgpu_init_opregion` returns the non-zero error (`-EINVAL` when
the translation yields `INTEL_GVT_INVALID_ADDR`, the code `e` of the map
call otherwise); the events after the two debug lines are exactly the
translation and map calls of pages `0 .. k-1`, then the translation of page
`k` (and, in the second case, its refused map call), then the error line.
Nothing is issued for a page beyond `k` and no unmap request is made. -/
theorem init_opregion_partial_failure (D : GvtDefs) (H : Mpt) (s : Host) (gpa k : Nat)
    (hx : s.hypervisor_type = D.INTEL_GVT_HYPERVISOR_XEN) (hva : s.vgpu.va = NULL)
    (hE : D.EINVAL ≠ 0) (hk : k < D.INTEL_GVT_OPREGION_PAGES)
    (hok : ∀ j, j < k → page_ok D H (init_vgpu_opregion D s gpa).2.vgpu true j) :
    (H.virt_to_mfn (s.opregion_va + k * D.PAGE_SIZE) = D.INTEL_GVT_INVALID_ADDR →
      (intel_vgpu_init_opregion D H s gpa).1 = -D.EINVAL
      ∧ (intel_vgpu_init_opregion D H s gpa).1 ≠ 0
      ∧ (intel_vgpu_init_opregion D H s gpa).2.trace
          = s.trace ++ [Event.log "vgpu%d: init vgpu opregion\n",
              Event.log "emulate opregion from kernel\n"]
            ++ map_pages_events D H (init_vgpu_opregion D s gpa).2.vgpu true 0 k
            ++ [Event.virt_to_mfn (s.opregion_va + k * D.PAGE_SIZE),
                Event.log "fail to get MFN from VA\n"]
      ∧ ∀ ev ∈ (intel_vgpu_init_opregion D H s gpa).2.trace.drop s.trace.length,
          ev.is_unmap = false)
    ∧ (∀ e : Int, e ≠ 0 →
      H.virt_to_mfn (s.opregion_va + k * D.PAGE_SIZE) ≠ D.INTEL_GVT_INVALID_ADDR →
      (∀ tr, H.map_gfn_to_mfn tr s.vgpu.id ((init_vgpu_opregion D s gpa).2.vgpu.gfn k)
        (H.virt_to_mfn (s.opregion_va + k * D.PAGE_SIZE)) 1 true = e) →
      (intel_vgpu_init_opregion D H s gpa).1 = e
      ∧ (intel_vgpu_init_opregion D H s gpa).2.trace
          = s.trace ++ [Event.log "vgpu%d: init vgpu opregion\n",
              Event.log "emulate opregion from kernel\n"]
            ++ map_pages_events D H (init_vgpu_opregion D s gpa).2.vgpu true 0 k
            ++ [Event.virt_to_mfn (s.opregion_va + k * D.PAGE_SIZE),
                Event.map_gfn_to_mfn s.vgpu.id ((init_vgpu_opregion D s gpa).2.vgpu.gfn k)
                  (H.virt_to_mfn (s.opregion_va + k * D.PAGE_SIZE)) 1 true,
                Event.log "fail to map GFN to MFN, errno: %d\n"]
      ∧ ∀ ev ∈ (intel_vgpu_init_opregion D H s gpa).2.trace.drop s.trace.length,
          ev.is_unmap = false) := by
  have hv : (init_vgpu_opregion D s gpa).2.vgpu.va = s.opregion_va := by
    rw [init_vgpu_opregion_fresh D s gpa hva]
  have hi : (init_vgpu_opregion D s gpa).2.vgpu.id = s.vgpu.id := by
    rw [init_vgpu_opregion_fresh D s gpa hva]
  have hE' : -D.EINVAL ≠ 0 := by omega
  constructor
  · intro hbad
    rw [intel_vgpu_init_opregion_xen_fresh D H s gpa hx hva,
      map_vgpu_opregion_loop_bad_page D H _ true _ k _ hk hok (by rw [hv]; exact hbad)]
    refine ⟨rfl, hE', by simp only [hv], ?_⟩
    intro ev hev
    simp only [List.append_assoc, List.drop_left, List.mem_append, List.mem_cons,
      List.mem_singleton, List.not_mem_nil, or_false] at hev
    rcases hev with (rfl | rfl) | h | rfl | rfl
    · rfl
    · rfl
    · exact map_pages_events_no_unmap D H _ 0 k ev h
    · rfl
    · rfl
  · intro e he hmfn hbad
    rw [intel_vgpu_init_opregion_xen_fresh D H s gpa hx hva,
      map_vgpu_opregion_loop_bad_map D H _ true _ k _ e hk hok (by rw [hv]; exact hmfn) he
        (by rw [hv, hi]; exact hbad)]
    refine ⟨rfl, by simp only [hv, hi], ?_⟩
    intro ev hev
    simp only [List.append_assoc, List.drop_left, List.mem_append, List.mem_cons,
      List.mem_singleton, List.not_mem_nil, or_false] at hev
    rcases hev with (rfl | rfl) | h | rfl | rfl | rfl
    · rfl
    · rfl
    · exact map_pages_events_no_unmap D H _ 0 k ev h
    · rfl
    · rfl
    · rfl

/-- Witness for C16: the translation of page 1 fails, then the map request
of page 1 is refused with `-12`; page 0 stays mapped in both runs. -/
theorem init_opregion_partial_failure_witness :
    ((intel_vgpu_init_opregion gvt_defs (sample_mpt_bad_page 0x21000) sample_host_fresh
        0x3000).1 = -22
      ∧ (intel_vgpu_init_opregion gvt_defs (sample_mpt_bad_page 0x21000) sample_host_fresh
        0x3000).2.trace
        = [Event.log "vgpu%d: init vgpu opregion\n",
            Event.log "emulate opregion from kernel\n",
            Event.virt_to_mfn 0x20000, Event.map_gfn_to_mfn 1 3 0x20 1 true,
            Event.virt_to_mfn 0x21000, Event.log "fail to get MFN from VA\n"])
    ∧ ((intel_vgpu_init_opregion gvt_defs (sample_mpt_bad_gfn 4) sample_host_fresh
        0x3000).1 = -12
      ∧ (intel_vgpu_init_opregion gvt_defs (sample_mpt_bad_gfn 4) sample_host_fresh
        0x3000).2.trace
        = [Event.log "vgpu%d: init vgpu opregion\n",
            Event.log "emulate opregion from kernel\n",
            Event.virt_to_mfn 0x20000, Event.map_gfn_to_mfn 1 3 0x20 1 true,
            Event.virt_to_mfn 0x21000, Event.map_gfn_to_mfn 1 4 0x21 1 true,
            Event.log "fail to map GFN to MFN, errno: %d\n"]) :=
  ⟨⟨((init_opregion_partial_failure gvt_defs (sample_mpt_bad_page 0x21000)
        sample_host_fresh 0x3000 1 rfl rfl (by decide) (by decide)
        (fun j hj => by
          have : j = 0 := by omega
          subst this; exact ⟨by decide, fun _ => rfl⟩)).1 (by decide)).1,
    ((init_opregion_partial_failure gvt_defs (sample_mpt_bad_page 0x21000)
        sample_host_fresh 0x3000 1 rfl rfl (by decide) (by decide)
        (fun j hj => by
          have : j = 0 := by omega
          subst this; exact ⟨by decide, fun _ => rfl⟩)).1 (by decide)).2.2.1⟩,
   ⟨((init_opregion_partial_failure gvt_defs (sample_mpt_bad_gfn 4)
        sample_host_fresh 0x3000 1 rfl rfl (by decide) (by decide)
        (fun j hj => by
          have : j = 0 := by omega
          subst this; exact ⟨by decide, fun _ => rfl⟩)).2 (-12) (by decide) (by decide)
        (fun _ => rfl)).1,
    ((init_opregion_partial_failure gvt_defs (sample_mpt_bad_gfn 4)
        sample_host_fresh 0x3000 1 rfl rfl (by decide) (by decide)
        (fun j hj => by
          have : j = 0 := by omega
          subst this; exact ⟨by decide, fun _ => rfl⟩)).2 (-12) (by decide) (by decide)
        (fun _ => rfl)).2.1⟩⟩

theorem intel_vgpu_init_opregion_of_attached (D : GvtDefs) (H : Mpt) (s : Host) (gpa : Nat)
    (hx : s.hypervisor_type = D.INTEL_GVT_HYPERVISOR_XEN) (hE : D.EINVAL ≠ 0)
    (hva : s.vgpu.va ≠ NULL) :
    intel_vgpu_init_opregion D H s gpa
      = (-D.EINVAL, { s with trace := s.trace ++
          [Event.log "vgpu%d: init vgpu opregion\n",
           Event.log "emulate opregion from kernel\n",
           Event.log "vgpu%d: opregion has been initialized already.\n"] }) := by
  have hE' : -D.EINVAL ≠ 0 := by omega
  simp only [intel_vgpu_init_opregion, init_vgpu_opregion, hx, if_true, if_pos hva, hE',
    ne_eq, not_false_eq_true, List.append_assoc, List.cons_append, List.nil_append,
    List.singleton_append]

theorem attach_again_of_attached (D : GvtDefs) (hE : D.EINVAL ≠ 0)
    (calls : List (Mpt × Nat)) (s : Host)
    (hx : s.hypervisor_type = D.INTEL_GVT_HYPERVISOR_XEN) (hva : s.vgpu.va ≠ NULL) :
    (attach_again D calls s).1 = List.replicate calls.length (-D.EINVAL)
    ∧ (attach_again D calls s).2.vgpu = s.vgpu
    ∧ ∃ msgs : List String, (attach_again D calls s).2.trace = s.trace ++ msgs.map Event.log := by
  induction calls generalizing s with
  | nil => exact ⟨rfl, rfl, [], by simp [attach_again]⟩
  | cons c cs ih =>
    simp only [attach_again, intel_vgpu_init_opregion_of_attached D c.1 s c.2 hx hE hva,
      List.length_cons, List.replicate_succ]
    obtain ⟨h1, h2, msgs, h3⟩ := ih
      { s with trace := s.trace ++
          [Event.log "vgpu%d: init vgpu opregion\n",
           Event.log "emulate opregion from kernel\n",
           Event.log "vgpu%d: opregion has been initialized already.\n"] } hx hva
    refine ⟨by rw [h1], h2, "vgpu%d: init vgpu opregion\n" ::
      "emulate opregion from kernel\n" ::
      "vgpu%d: opregion has been initialized already.\n" :: msgs, ?_⟩
    rw [h3]
    simp

/-- Claim C19. A failed attach leaves the guest marked as attached: under
Xen, with the host buffer allocated, when `intel_vgpu_init_opregion` on a
never-attached guest fails (the error is that of the map loop, the `va`
check having passed), the guest's `va` is the (non-null) shared buffer
and `gfn[0 .. INTEL_GVT_OPREGION_PAGES-1]` is populated; every further
sequence of `intel_vgpu_init_opregion` calls returns `-EINVAL` each time,
leaves the vGPU as it is and emits log lines only; and
`intel_vgpu_clean_opregion` resets `va` to null. -/
theorem init_opregion_failed_attach_sticks (D : GvtDefs) (H : Mpt) (s : Host) (gpa : Nat)
    (hx : s.hypervisor_type = D.INTEL_GVT_HYPERVISOR_XEN) (hva : s.vgpu.va = NULL)
    (hbuf : s.opregion_va ≠ NULL) (hE : D.EINVAL ≠ 0)
    (hfail : (intel_vgpu_init_opregion D H s gpa).1 ≠ 0) :
    ((init_vgpu_opregion D s gpa).1 = 0
      ∧ (map_vgpu_opregion_loop D H (init_vgpu_opregion D s gpa).2.vgpu true
          D.INTEL_GVT_OPREGION_PAGES 0
          (s.trace ++ [Event.log "vgpu%d: init vgpu opregion\n",
            Event.log "emulate opregion from kernel\n"])).1 ≠ 0)
    ∧ (intel_vgpu_init_opregion D H s gpa).2.vgpu.va = s.opregion_va
    ∧ (intel_vgpu_init_opregion D H s gpa).2.vgpu.va ≠ NULL
    ∧ (∀ i, i < D.INTEL_GVT_OPREGION_PAGES →
        (intel_vgpu_init_opregion D H s gpa).2.vgpu.gfn i = u32 ((gpa >>> D.PAGE_SHIFT) + i))
    ∧ (∀ calls : List (Mpt × Nat),
        (attach_again D calls (intel_vgpu_init_opregion D H s gpa).2).1
            = List.replicate calls.length (-D.EINVAL)
        ∧ (attach_again D calls (intel_vgpu_init_opregion D H s gpa).2).2.vgpu
            = (intel_vgpu_init_opregion D H s gpa).2.vgpu
        ∧ ∃ msgs : List String,
            (attach_again D calls (intel_vgpu_init_opregion D H s gpa).2).2.trace
              = (intel_vgpu_init_opregion D H s gpa).2.trace ++ msgs.map Event.log)
    ∧ (∀ (A : Allocator) (H' : Mpt),
        (intel_vgpu_clean_opregion D A H' (intel_vgpu_init_opregion D H s gpa).2).vgpu.va
          = NULL) := by
  have hv : (init_vgpu_opregion D s gpa).2.vgpu.va = s.opregion_va := by
    rw [init_vgpu_opregion_fresh D s gpa hva]
  have hs : (intel_vgpu_init_opregion D H s gpa).2.vgpu = (init_vgpu_opregion D s gpa).2.vgpu := by
    rw [intel_vgpu_init_opregion_xen_fresh D H s gpa hx hva]
  have hh : (intel_vgpu_init_opregion D H s gpa).2.hypervisor_type
      = D.INTEL_GVT_HYPERVISOR_XEN := by
    rw [intel_vgpu_init_opregion_xen_fresh D H s gpa hx hva]; exact hx
  have hnn : (intel_vgpu_init_opregion D H s gpa).2.vgpu.va ≠ NULL := by
    rw [hs, hv]; exact hbuf
  refine ⟨?_, by rw [hs, hv], hnn, ?_, ?_, ?_⟩
  · rw [intel_vgpu_init_opregion_xen_fresh D H s gpa hx hva] at hfail
    refine ⟨?_, hfail⟩
    simp only [init_vgpu_opregion, hva, ne_eq, not_true_eq_false, if_false]
  · intro i hi
    rw [hs, init_vgpu_opregion_fresh D s gpa hva]
    simp only [init_vgpu_opregion_loop_apply]
    rw [if_pos (by omega)]
  · intro calls
    exact attach_again_of_attached D hE calls _ hh hnn
  · intro A H'
    simp only [intel_vgpu_clean_opregion, if_neg hnn, hh, if_true]

/-- Witness for C19: the translation of page 1 fails during the attach of
the fresh sample vGPU; two further attach attempts get `-22` and issue no
hypervisor call. -/
theorem init_opregion_failed_attach_sticks_witness :
    (intel_vgpu_init_opregion gvt_defs (sample_mpt_bad_page 0x21000) sample_host_fresh
        0x3000).1 = -22
    ∧ (intel_vgpu_init_opregion gvt_defs (sample_mpt_bad_page 0x21000) sample_host_fresh
        0x3000).2.vgpu.va = 0x20000
    ∧ (attach_again gvt_defs [(sample_mpt, 0x3000), (sample_mpt, 0x5000)]
        (intel_vgpu_init_opregion gvt_defs (sample_mpt_bad_page 0x21000) sample_host_fresh
          0x3000).2).1 = [-22, -22] :=
  ⟨by decide,
   (init_opregion_failed_attach_sticks gvt_defs (sample_mpt_bad_page 0x21000)
      sample_host_fresh 0x3000 rfl rfl (by decide) (by decide) (by decide)).2.1,
   ((init_opregion_failed_attach_sticks gvt_defs (sample_mpt_bad_page 0x21000)
      sample_host_fresh 0x3000 rfl rfl (by decide) (by decide) (by decide)).2.2.2.2.1
      [(sample_mpt, 0x3000), (sample_mpt, 0x5000)]).1⟩

/-! ## Detaching the OpRegion from a vGPU -/

/-- Claim C11. Detach of a never-attached guest is a no-op: when
`vgpu_opregion(vgpu)->va` is null, on every hypervisor type
`intel_vgpu_clean_opregion` leaves the vGPU (`va`, `gfn[]`) and the host
buffer pointer unchanged and emits nothing but its debug line: no unmap
call, no `free_pages`. -/
theorem clean_opregion_never_attached (D : GvtDefs) (A : Allocator) (H : Mpt) (s : Host)
    (hva : s.vgpu.va = NULL) :
    (intel_vgpu_clean_opregion D A H s).vgpu = s.vgpu
    ∧ (intel_vgpu_clean_opregion D A H s).opregion_va = s.opregion_va
    ∧ (intel_vgpu_clean_opregion D A H s).hypervisor_type = s.hypervisor_type
    ∧ (intel_vgpu_clean_opregion D A H s).trace
        = s.trace ++ [Event.log "vgpu%d: clean vgpu opregion\n"] := by
  simp only [intel_vgpu_clean_opregion, hva, if_true, and_self]

/-- Witness for C11: the fresh sample vGPU under both hypervisor types. -/
theorem clean_opregion_never_attached_witness :
    (intel_vgpu_clean_opregion gvt_defs sample_alloc sample_mpt sample_host_fresh).trace
        = [Event.log "vgpu%d: clean vgpu opregion\n"]
    ∧ (intel_vgpu_clean_opregion gvt_defs sample_alloc sample_mpt
        { sample_host_fresh with hypervisor_type := 1 }).trace
        = [Event.log "vgpu%d: clean vgpu opregion\n"] :=
  ⟨(clean_opregion_never_attached gvt_defs sample_alloc sample_mpt sample_host_fresh
      rfl).2.2.2,
   (clean_opregion_never_attached gvt_defs sample_alloc sample_mpt
      { sample_host_fresh with hypervisor_type := 1 } rfl).2.2.2⟩

/-- Claim C13, amended. When the hypervisor type is not
`INTEL_GVT_HYPERVISOR_XEN`, `intel_vgpu_clean_opregion` on a guest whose
`va` is non-null leaves `va` as it is (the reference is not cleared), issues
no unmap call and releases no buffer: only the debug line is emitted. -/
theorem clean_opregion_not_xen (D : GvtDefs) (A : Allocator) (H : Mpt) (s : Host)
    (hx : s.hypervisor_type ≠ D.INTEL_GVT_HYPERVISOR_XEN) (hva : s.vgpu.va ≠ NULL) :
    (intel_vgpu_clean_opregion D A H s).vgpu = s.vgpu
    ∧ (intel_vgpu_clean_opregion D A H s).vgpu.va ≠ NULL
    ∧ (intel_vgpu_clean_opregion D A H s).opregion_va = s.opregion_va
    ∧ (intel_vgpu_clean_opregion D A H s).trace
        = s.trace ++ [Event.log "vgpu%d: clean vgpu opregion\n"] := by
  simp only [intel_vgpu_clean_opregion, if_neg hva, if_neg hx, and_self, true_and]
  exact ⟨hva, trivial⟩

/-- Witness for C13: the attached sample vGPU under hypervisor type 1. -/
theorem clean_opregion_not_xen_witness :
    (intel_vgpu_clean_opregion gvt_defs sample_alloc sample_mpt (sample_host 1)).vgpu.va
        = 0x10000
    ∧ (intel_vgpu_clean_opregion gvt_defs sample_alloc sample_mpt (sample_host 1)).trace
        = [Event.log "vgpu%d: clean vgpu opregion\n"] :=
  ⟨congrArg intel_vgpu.va
      (clean_opregion_not_xen gvt_defs sample_alloc sample_mpt (sample_host 1) (by decide)
        (by decide)).1,
   (clean_opregion_not_xen gvt_defs sample_alloc sample_mpt (sample_host 1) (by decide)
      (by decide)).2.2.2⟩

/-- Counterexample to C13 as stated: under hypervisor type 1 the stored
reference of an attached guest is still non-null after
`intel_vgpu_clean_opregion`. -/
theorem clean_opregion_not_xen_keeps_va :
    (sample_host 1).hypervisor_type ≠ gvt_defs.INTEL_GVT_HYPERVISOR_XEN
    ∧ (sample_host 1).vgpu.va ≠ NULL
    ∧ (intel_vgpu_clean_opregion gvt_defs sample_alloc sample_mpt (sample_host 1)).vgpu.va
        ≠ NULL := by
  decide

/-- Claim C17, the code at the failing input: a guest attached under Xen by
`intel_vgpu_init_opregion` holds the shared buffer `gvt->opregion.opregion_va`
(`0x20000`); `intel_vgpu_clean_opregion` unmaps both pages, hands that very
buffer to `free_pages` and clears `va`, while the host still points to the
buffer, and `intel_gvt_clean_opregion` later frees it a second time. -/
theorem clean_opregion_frees_shared_buffer :
    (intel_vgpu_init_opregion gvt_defs sample_mpt sample_host_fresh 0x3000).1 = 0
    ∧ (intel_vgpu_init_opregion gvt_defs sample_mpt sample_host_fresh 0x3000).2.vgpu.va
        = sample_host_fresh.opregion_va
    ∧ (intel_vgpu_clean_opregion gvt_defs sample_alloc sample_mpt
        (intel_vgpu_init_opregion gvt_defs sample_mpt sample_host_fresh 0x3000).2).trace
      = (intel_vgpu_init_opregion gvt_defs sample_mpt sample_host_fresh 0x3000).2.trace ++
        [Event.log "vgpu%d: clean vgpu opregion\n",
         Event.virt_to_mfn 0x20000, Event.map_gfn_to_mfn 1 3 0x20 1 false,
         Event.virt_to_mfn 0x21000, Event.map_gfn_to_mfn 1 4 0x21 1 false,
         Event.free_pages 0x20000 1]
    ∧ (intel_vgpu_clean_opregion gvt_defs sample_alloc sample_mpt
        (intel_vgpu_init_opregion gvt_defs sample_mpt sample_host_fresh 0x3000).2).vgpu.va
      = NULL
    ∧ (intel_vgpu_clean_opregion gvt_defs sample_alloc sample_mpt
        (intel_vgpu_init_opregion gvt_defs sample_mpt sample_host_fresh 0x3000).2).opregion_va
      = 0x20000
    ∧ ((intel_gvt_clean_opregion gvt_defs sample_alloc
        (intel_vgpu_clean_opregion gvt_defs sample_alloc sample_mpt
          (intel_vgpu_init_opregion gvt_defs sample_mpt sample_host_fresh 0x3000).2)).trace.filter
          (fun e => e = Event.free_pages 0x20000 1)).length = 2 := by
  decide

/-! ## Repeated SWSCI requests -/

theorem testBit_bnot32 (x i : Nat) :
    (bnot32 x).testBit i = (decide (i < 32) && !x.testBit i) := by
  unfold bnot32
  have hm : x % 2 ^ 32 < 2 ^ 32 := Nat.mod_lt _ (by norm_num)
  rw [show 2 ^ 32 - 1 - x % 2 ^ 32 = 2 ^ 32 - (x % 2 ^ 32 + 1) by omega,
    Nat.testBit_two_pow_sub_succ hm, Nat.testBit_mod_two_pow]
  by_cases hi : i < 32 <;> simp [hi]

theorem and_bnot32_and (s m e : Nat) (hs : s < 2 ^ 32) (hme : m &&& e = 0) :
    (s &&& bnot32 e) &&& m = s &&& m := by
  apply Nat.eq_of_testBit_eq
  intro i
  have h1 : (m.testBit i && e.testBit i) = false := by
    rw [← Nat.testBit_and, hme, Nat.zero_testBit]
  simp only [Nat.testBit_and, testBit_bnot32]
  by_cases hi : i < 32
  · cases hm : m.testBit i <;> cases he : e.testBit i <;> simp_all
  · have : s.testBit i = false :=
      Nat.testBit_lt_two_pow (lt_of_lt_of_le hs (Nat.pow_le_pow_right (by norm_num)
        (by omega)))
    simp [this]

theorem and_bnot32_idem (s e : Nat) : (s &&& bnot32 e) &&& bnot32 e = s &&& bnot32 e := by
  apply Nat.eq_of_testBit_eq
  intro i
  simp only [Nat.testBit_and, Bool.and_assoc, Bool.and_self]

theorem querying_capabilities_zero (D : GvtDefs)
    (h4 : D.INTEL_GVT_OPREGION_SCIC_F_GETBIOSDATA ≠ 0)
    (h6 : D.INTEL_GVT_OPREGION_SCIC_F_GETBIOSCALLBACKS ≠ 0) :
    querying_capabilities D 0 = false := by
  have hf : GVT_OPREGION_FUNC D 0 = 0 := by simp [GVT_OPREGION_FUNC, u32]
  simp only [querying_capabilities, hf]
  rw [if_neg]
  rintro (⟨h, -⟩ | ⟨h, -⟩ | ⟨h, -⟩)
  · exact h4 h.symm
  · exact h4 h.symm
  · exact h6 h.symm

/-- Claim C18. When `OPREGION_SCIC_FUNC_MASK` and `OPREGION_SCIC_SUBFUNC_MASK`
share no bit with `OPREGION_SCIC_EXIT_MASK` (as for `0x1E`, `0xFF00` and
`0xE0`), clearing the exit bits of a 32-bit `s` changes neither
`GVT_OPREGION_FUNC`, nor `GVT_OPREGION_SUBFUNC`, nor `querying_capabilities`.
Hence a second rising-edge request after an unsupported one is unsupported
again and leaves `SCIC` and `PARM` as the first left them; and after a
capability query (`SCIC == 0`, not a capability pair when the two function
codes are non-zero) a second request takes the unsupported branch and leaves
`SCIC == 0` and `PARM == 0`. -/
theorem emulate_request_twice (D : GvtDefs)
    (hF : D.OPREGION_SCIC_FUNC_MASK &&& D.OPREGION_SCIC_EXIT_MASK = 0)
    (hS : D.OPREGION_SCIC_SUBFUNC_MASK &&& D.OPREGION_SCIC_EXIT_MASK = 0) :
    (∀ s, s < 2 ^ 32 →
      GVT_OPREGION_FUNC D (s &&& bnot32 D.OPREGION_SCIC_EXIT_MASK) = GVT_OPREGION_FUNC D s
      ∧ GVT_OPREGION_SUBFUNC D (s &&& bnot32 D.OPREGION_SCIC_EXIT_MASK)
          = GVT_OPREGION_SUBFUNC D s
      ∧ querying_capabilities D (s &&& bnot32 D.OPREGION_SCIC_EXIT_MASK)
          = querying_capabilities D s)
    ∧ (∀ (vgpu : intel_vgpu) (mem : Mem) (swsci : Nat),
        D.regs_disjoint → vgpu.va ≠ NULL →
        swsci &&& D.SWSCI_SCI_SELECT ≠ 0 → swsci &&& D.SWSCI_SCI_TRIGGER ≠ 0 →
        load vgpu.cfg_space D.INTEL_GVT_PCI_SWSCI 1 &&& D.SWSCI_SCI_TRIGGER = 0 →
        (querying_capabilities D (SCIC D vgpu mem) = false →
          ∃ r q, intel_vgpu_emulate_opregion_request D vgpu mem swsci = some r
            ∧ intel_vgpu_emulate_opregion_request D r.vgpu r.mem swsci = some q
            ∧ querying_capabilities D (SCIC D r.vgpu r.mem) = false
            ∧ q.ret = 0
            ∧ SCIC D q.vgpu q.mem = SCIC D r.vgpu r.mem
            ∧ PARM D q.vgpu q.mem = PARM D r.vgpu r.mem)
        ∧ (querying_capabilities D (SCIC D vgpu mem) = true →
          D.INTEL_GVT_OPREGION_SCIC_F_GETBIOSDATA ≠ 0 →
          D.INTEL_GVT_OPREGION_SCIC_F_GETBIOSCALLBACKS ≠ 0 →
          ∃ r q, intel_vgpu_emulate_opregion_request D vgpu mem swsci = some r
            ∧ intel_vgpu_emulate_opregion_request D r.vgpu r.mem swsci = some q
            ∧ SCIC D r.vgpu r.mem = 0 ∧ PARM D r.vgpu r.mem = 0
            ∧ querying_capabilities D (SCIC D r.vgpu r.mem) = false
            ∧ q.ret = 0
            ∧ SCIC D q.vgpu q.mem = 0 ∧ PARM D q.vgpu q.mem = 0)) := by
  have key : ∀ s, s < 2 ^ 32 →
      GVT_OPREGION_FUNC D (s &&& bnot32 D.OPREGION_SCIC_EXIT_MASK) = GVT_OPREGION_FUNC D s
      ∧ GVT_OPREGION_SUBFUNC D (s &&& bnot32 D.OPREGION_SCIC_EXIT_MASK)
          = GVT_OPREGION_SUBFUNC D s
      ∧ querying_capabilities D (s &&& bnot32 D.OPREGION_SCIC_EXIT_MASK)
          = querying_capabilities D s := by
    intro s hs
    have h1 := and_bnot32_and s _ _ hs hF
    have h2 := and_bnot32_and s _ _ hs hS
    refine ⟨?_, ?_, ?_⟩
    · simp only [GVT_OPREGION_FUNC, h1]
    · simp only [GVT_OPREGION_SUBFUNC, h2]
    · simp only [querying_capabilities, GVT_OPREGION_FUNC, GVT_OPREGION_SUBFUNC, h1, h2]
  refine ⟨key, ?_⟩
  intro vgpu mem swsci hregs hmapped hsel htrig hprev
  have hs : SCIC D vgpu mem < 2 ^ 32 := load_lt mem _ 4
  constructor
  · intro hq
    have e1 := emulate_unsupported opregion_func_name opregion_subfunc_name D vgpu mem swsci
      hmapped hsel htrig hprev hq
    have hnew : SCIC D vgpu (store mem (vgpu.va + D.INTEL_GVT_OPREGION_SCIC) 4
          (SCIC D vgpu mem &&& bnot32 D.OPREGION_SCIC_EXIT_MASK))
        = SCIC D vgpu mem &&& bnot32 D.OPREGION_SCIC_EXIT_MASK := by
      unfold SCIC
      rw [load_store_same]
      exact Nat.mod_eq_of_lt (lt_of_le_of_lt Nat.and_le_left (load_lt mem _ 4))
    have hq1 : querying_capabilities D (SCIC D vgpu (store mem
          (vgpu.va + D.INTEL_GVT_OPREGION_SCIC) 4
          (SCIC D vgpu mem &&& bnot32 D.OPREGION_SCIC_EXIT_MASK))) = false := by
      rw [hnew, (key _ hs).2.2, hq]
    have e2 := emulate_unsupported opregion_func_name opregion_subfunc_name D vgpu _ swsci
      hmapped hsel htrig hprev hq1
    refine ⟨_, _, e1, e2, hq1, rfl, ?_, ?_⟩
    · show SCIC D vgpu (store _ _ 4 _) = SCIC D vgpu (store mem _ 4 _)
      rw [hnew, and_bnot32_idem]
      unfold SCIC
      rw [load_store_same]
      exact Nat.mod_eq_of_lt (lt_of_le_of_lt Nat.and_le_left (load_lt mem _ 4))
    · show PARM D vgpu (store _ _ 4 _) = PARM D vgpu (store mem _ 4 _)
      unfold PARM
      apply load_store_disj
      unfold GvtDefs.regs_disjoint at hregs
      omega
  · intro hq h4 h6
    have e1 := emulate_capability opregion_func_name opregion_subfunc_name D vgpu mem swsci
      hmapped hsel htrig hprev hq
    have hz : SCIC D vgpu (store (store mem (vgpu.va + D.INTEL_GVT_OPREGION_SCIC) 4 0)
        (vgpu.va + D.INTEL_GVT_OPREGION_PARM) 4 0) = 0 := by
      unfold SCIC
      apply load_eq_zero
      intro i h1 h2
      simp only [store_zero_apply]
      split_ifs <;> first | rfl | omega
    have hp : PARM D vgpu (store (store mem (vgpu.va + D.INTEL_GVT_OPREGION_SCIC) 4 0)
        (vgpu.va + D.INTEL_GVT_OPREGION_PARM) 4 0) = 0 := by
      unfold PARM
      rw [load_store_same]
      rfl
    have hq1 : querying_capabilities D (SCIC D vgpu (store (store mem
        (vgpu.va + D.INTEL_GVT_OPREGION_SCIC) 4 0)
        (vgpu.va + D.INTEL_GVT_OPREGION_PARM) 4 0)) = false := by
      rw [hz]; exact querying_capabilities_zero D h4 h6
    have e2 := emulate_unsupported opregion_func_name opregion_subfunc_name D vgpu _ swsci
      hmapped hsel htrig hprev hq1
    refine ⟨_, _, e1, e2, hz, hp, hq1, rfl, ?_, ?_⟩
    · show SCIC D vgpu (store _ _ 4 _) = 0
      rw [hz]
      unfold SCIC
      rw [load_store_same]
      simp
    · show PARM D vgpu (store _ _ 4 _) = 0
      refine Eq.trans ?_ hp
      unfold PARM
      apply load_store_disj
      unfold GvtDefs.regs_disjoint at hregs
      omega

/-- Witness for C18: with masks `0x1E`, `0xFF00`, `0xE0`, function 6 /
sub-function 5 survives the clearing of the exit bits of `0x5ec`, and a
second request on the sample vGPU leaves `SCIC == 0x50c`, `PARM == 0x1234`. -/
theorem emulate_request_twice_witness :
    (GVT_OPREGION_FUNC gvt_defs (0x5ec &&& bnot32 0xE0),
      GVT_OPREGION_SUBFUNC gvt_defs (0x5ec &&& bnot32 0xE0)) = (6, 5)
    ∧ querying_capabilities gvt_defs (0x5ec &&& bnot32 0xE0)
        = querying_capabilities gvt_defs 0x5ec
    ∧ ((intel_vgpu_emulate_opregion_request gvt_defs sample_vgpu (sample_mem 0x5ec)
          0x8001).bind
        (fun r => intel_vgpu_emulate_opregion_request gvt_defs r.vgpu r.mem 0x8001)).map
        (fun q => (q.ret, SCIC gvt_defs q.vgpu q.mem, PARM gvt_defs q.vgpu q.mem))
      = some (0, 0x50c, 0x1234) := by
  refine ⟨by decide,
    ((emulate_request_twice gvt_defs (by decide) (by decide)).1 0x5ec (by decide)).2.2, ?_⟩
  obtain ⟨r, q, h1, h2, -, h3, h4, h5⟩ :=
    ((emulate_request_twice gvt_defs (by decide) (by decide)).2 sample_vgpu
      (sample_mem 0x5ec) 0x8001 (by decide) (by decide) (by decide) (by decide)
      (by decide)).1 (by decide)
  have hs : SCIC gvt_defs r.vgpu r.mem = 0x50c ∧ PARM gvt_defs r.vgpu r.mem = 0x1234 := by
    cases h1
    decide
  rw [h1, Option.some_bind, h2, Option.map_some', h3, h4, h5, hs.1, hs.2]

/-! ## Determinism of the VBT builder -/

theorem wbytes_agree (n : Nat) (m m' : Mem) (a : Nat) (bs : List Nat) (h : agree n m m') :
    agree n (wbytes m a bs) (wbytes m' a bs) := by
  intro i hi
  unfold wbytes
  split_ifs
  · rfl
  · exact h i hi

theorem store_agree (n : Nat) (m m' : Mem) (a w v : Nat) (h : agree n m m') :
    agree n (store m a w v) (store m' a w v) :=
  wbytes_agree n m m' a _ h

theorem strcpy_agree (n : Nat) (m m' : Mem) (a : Nat) (s : String) (h : agree n m m') :
    agree n (strcpy m a s) (strcpy m' a s) :=
  wbytes_agree n m m' a _ h

theorem wbits_agree (n : Nat) (m m' : Mem) (a : Nat) (f : BitField) (v : Nat)
    (h : agree n m m') (hb : a + f.byte < n) :
    agree n (wbits m a f v) (wbits m' a f v) := by
  unfold wbits
  rw [h (a + f.byte) hb]
  exact store_agree n m m' _ _ _ h

theorem memset_agree (n : Nat) (m m' : Mem) (c : Nat) :
    agree n (memset m 0 c n) (memset m' 0 c n) := by
  intro i hi
  unfold memset wbytes
  rw [if_pos (by simp; omega), if_pos (by simp; omega)]

theorem memset_inside (m : Mem) (a c n i : Nat) (h1 : a ≤ i) (h2 : i < a + n) :
    memset m a c n i = c % 256 := by
  unfold memset wbytes
  rw [if_pos (by simp; omega), List.getD_eq_getElem _ _ (by simp; omega)]
  simp

theorem wbits_outside (m : Mem) (a : Nat) (f : BitField) (v i : Nat)
    (h : i < a + f.byte ∨ a + f.byte + 1 ≤ i) : wbits m a f v i = m i := by
  unfold wbits
  exact store_outside _ _ _ _ _ h

theorem strcpy_outside (m : Mem) (a : Nat) (s : String) (i : Nat)
    (h : i < a ∨ a + (s.length + 1) ≤ i) : strcpy m a s i = m i := by
  unfold strcpy
  exact wbytes_outside _ _ _ _ (by simpa using h)

theorem virt_vbt_generation_agree (L : VbtDefs) (h : L.WF) (v v' : Mem) :
    agree (vbt.sizeof L) (virt_vbt_generation L v) (virt_vbt_generation L v') := by
  simp only [VbtDefs.WF, Field.before, Field.within, BitField.within, fits] at h
  simp only [virt_vbt_generation]
  refine wbits_agree _ _ _ _ _ _ ?_ (by
    simp only [vbt.sizeof, vbt.driver_features, vbt.driver_features_header, vbt.child3,
      vbt.child2, vbt.child1, vbt.child0, vbt.general_definitions,
      vbt.general_definitions_header, vbt.general_features, vbt.general_features_header,
      vbt.bdb_header, vbt.header, sizeof_bdb_data_header]
    omega)
  refine store_agree _ _ _ _ _ _ ?_
  refine store_agree _ _ _ _ _ _ ?_
  refine store_agree _ _ _ _ _ _ ?_
  refine store_agree _ _ _ _ _ _ ?_
  refine store_agree _ _ _ _ _ _ ?_
  refine store_agree _ _ _ _ _ _ ?_
  refine store_agree _ _ _ _ _ _ ?_
  refine store_agree _ _ _ _ _ _ ?_
  refine store_agree _ _ _ _ _ _ ?_
  refine store_agree _ _ _ _ _ _ ?_
  refine store_agree _ _ _ _ _ _ ?_
  refine store_agree _ _ _ _ _ _ ?_
  refine store_agree _ _ _ _ _ _ ?_
  refine store_agree _ _ _ _ _ _ ?_
  refine store_agree _ _ _ _ _ _ ?_
  refine store_agree _ _ _ _ _ _ ?_
  refine store_agree _ _ _ _ _ _ ?_
  refine store_agree _ _ _ _ _ _ ?_
  refine store_agree _ _ _ _ _ _ ?_
  refine store_agree _ _ _ _ _ _ ?_
  refine store_agree _ _ _ _ _ _ ?_
  refine wbits_agree _ _ _ _ _ _ ?_ (by
    simp only [vbt.sizeof, vbt.driver_features, vbt.driver_features_header, vbt.child3,
      vbt.child2, vbt.child1, vbt.child0, vbt.general_definitions,
      vbt.general_definitions_header, vbt.general_features, vbt.general_features_header,
      vbt.bdb_header, vbt.header, sizeof_bdb_data_header]
    omega)
  refine wbits_agree _ _ _ _ _ _ ?_ (by
    simp only [vbt.sizeof, vbt.driver_features, vbt.driver_features_header, vbt.child3,
      vbt.child2, vbt.child1, vbt.child0, vbt.general_definitions,
      vbt.general_definitions_header, vbt.general_features, vbt.general_features_header,
      vbt.bdb_header, vbt.header, sizeof_bdb_data_header]
    omega)
  refine store_agree _ _ _ _ _ _ ?_
  refine store_agree _ _ _ _ _ _ ?_
  refine store_agree _ _ _ _ _ _ ?_
  refine store_agree _ _ _ _ _ _ ?_
  refine store_agree _ _ _ _ _ _ ?_
  refine strcpy_agree _ _ _ _ _ ?_
  refine store_agree _ _ _ _ _ _ ?_
  refine store_agree _ _ _ _ _ _ ?_
  refine store_agree _ _ _ _ _ _ ?_
  refine store_agree _ _ _ _ _ _ ?_
  refine store_agree _ _ _ _ _ _ ?_
  refine store_agree _ _ _ _ _ _ ?_
  refine store_agree _ _ _ _ _ _ ?_
  refine store_agree _ _ _ _ _ _ ?_
  exact memset_agree _ _ _ _

theorem virt_vbt_generation_unassigned (L : VbtDefs) (v : Mem) (i : Nat)
    (hi : i < vbt.sizeof L)
    (hr : ∀ r ∈ vbt_assigned L, i < r.1 ∨ r.1 + r.2 ≤ i) :
    virt_vbt_generation L v i = 0 := by
  simp only [vbt_assigned, List.forall_mem_cons, List.not_mem_nil, false_imp_iff,
    implies_true, and_true] at hr
  obtain ⟨h1, h2, h3, h4, h5, h6, h7, h8, h9, h10, h11, h12, h13, h14, h15, h16, h17, h18,
    h19, h20, h21, h22, h23, h24, h25, h26, h27, h28, h29, h30, h31, h32, h33, h34, h35,
    h36, h37, h38⟩ := hr
  simp only [virt_vbt_generation]
  rw [wbits_outside _ _ _ _ _ h38, store_outside _ _ _ _ _ h37, store_outside _ _ _ _ _ h36,
    store_outside _ _ _ _ _ h35, store_outside _ _ _ _ _ h34, store_outside _ _ _ _ _ h33,
    store_outside _ _ _ _ _ h32, store_outside _ _ _ _ _ h31, store_outside _ _ _ _ _ h30,
    store_outside _ _ _ _ _ h29, store_outside _ _ _ _ _ h28, store_outside _ _ _ _ _ h27,
    store_outside _ _ _ _ _ h26, store_outside _ _ _ _ _ h25, store_outside _ _ _ _ _ h24,
    store_outside _ _ _ _ _ h23, store_outside _ _ _ _ _ h22, store_outside _ _ _ _ _ h21,
    store_outside _ _ _ _ _ h20, store_outside _ _ _ _ _ h19, store_outside _ _ _ _ _ h18,
    store_outside _ _ _ _ _ h17, wbits_outside _ _ _ _ _ h16, wbits_outside _ _ _ _ _ h15,
    store_outside _ _ _ _ _ h14, store_outside _ _ _ _ _ h13, store_outside _ _ _ _ _ h12,
    store_outside _ _ _ _ _ h11, store_outside _ _ _ _ _ h10, strcpy_outside _ _ _ _ h9,
    store_outside _ _ _ _ _ h8, store_outside _ _ _ _ _ h7, store_outside _ _ _ _ _ h6,
    store_outside _ _ _ _ _ h5, store_outside _ _ _ _ _ h4, store_outside _ _ _ _ _ h3,
    store_outside _ _ _ _ _ h2, store_outside _ _ _ _ _ h1,
    memset_inside _ _ _ _ _ (Nat.zero_le i) (by omega)]

/-- Claim C14. `virt_vbt_generation` is deterministic and independent of the
prior content of the buffer: any two initial contents give byte-identical
blobs; every byte of the blob that lies in none of the assigned ranges is
zero; and the builder applied to its own output gives the same bytes. -/
theorem virt_vbt_generation_deterministic (L : VbtDefs) (h : L.WF) :
    (∀ v v' : Mem, vbt_blob L v = vbt_blob L v')
    ∧ (∀ (v : Mem) (i : Nat), i < vbt.sizeof L →
        (∀ r ∈ vbt_assigned L, i < r.1 ∨ r.1 + r.2 ≤ i) →
        virt_vbt_generation L v i = 0)
    ∧ (∀ v : Mem, vbt_blob L (virt_vbt_generation L v) = vbt_blob L v) := by
  have key : ∀ v v' : Mem, vbt_blob L v = vbt_blob L v' := by
    intro v v'
    unfold vbt_blob
    apply rbytes_congr
    intro i _ hi
    exact virt_vbt_generation_agree L h v v' i (by omega)
  exact ⟨key, fun v i hi hr => virt_vbt_generation_unassigned L v i hi hr,
    fun v => key _ _⟩

/-- Witness for C14: for `vbt198` the blobs built over a buffer of `0xAA`
bytes and over a buffer of `0x00` bytes coincide, and byte 4 (inside the
signature array, past "$VBT") is zero. -/
theorem virt_vbt_generation_deterministic_witness :
    vbt198.WF
    ∧ vbt_blob vbt198 (fun _ => 0xAA) = vbt_blob vbt198 (fun _ => 0)
    ∧ virt_vbt_generation vbt198 (fun _ => 0xAA) 4 = 0 :=
  ⟨by decide, (virt_vbt_generation_deterministic vbt198 (by decide)).1 _ _,
    (virt_vbt_generation_deterministic vbt198 (by decide)).2.1 (fun _ => 0xAA) 4
      (by decide) (by decide)⟩

/-! ## Host initialisation -/

theorem rbytes_map_mod (m : Mem) (a n : Nat) :
    (rbytes m a n).map (· % 256) = rbytes m a n := by
  induction n generalizing a with
  | zero => rfl
  | succ n ih => simp [rbytes, ih]

theorem rbytes_take (m : Mem) (a n k : Nat) (h : k ≤ n) :
    (rbytes m a n).take k = rbytes m a k := by
  induction k generalizing a n with
  | zero => simp [rbytes]
  | succ k ih =>
    obtain ⟨n', rfl⟩ : ∃ n', n = n' + 1 := ⟨n - 1, by omega⟩
    simp only [rbytes, List.take_succ_cons]
    rw [ih (a + 1) n' (by omega)]

theorem rbytes_store_disj (m : Mem) (a w v b n : Nat) (h : b + n ≤ a ∨ a + w ≤ b) :
    rbytes (store m a w v) b n = rbytes m b n := by
  unfold store
  exact rbytes_wbytes_disj _ _ _ _ _ (by rw [le_bytes_length]; exact h)

theorem rbytes_memcpy_disj (m : Mem) (d : Nat) (src : Mem) (s k b n : Nat)
    (h : b + n ≤ d ∨ d + k ≤ b) :
    rbytes (memcpy m d src s k) b n = rbytes m b n := by
  unfold memcpy
  exact rbytes_wbytes_disj _ _ _ _ _ (by rw [rbytes_length]; exact h)

theorem rbytes_memcpy_same (m : Mem) (d : Nat) (src : Mem) (s k : Nat) :
    rbytes (memcpy m d src s k) d k = rbytes src s k := by
  unfold memcpy
  have := rbytes_wbytes_same m d (rbytes src s k)
  rw [rbytes_length, rbytes_map_mod] at this
  exact this

theorem memcpy_outside (m : Mem) (d : Nat) (src : Mem) (s k i : Nat)
    (h : i < d ∨ d + k ≤ i) : memcpy m d src s k i = m i := by
  unfold memcpy
  exact wbytes_outside _ _ _ _ (by rw [rbytes_length]; exact h)

theorem load_memcpy_disj (m : Mem) (d : Nat) (src : Mem) (s k b n : Nat)
    (h : b + n ≤ d ∨ d + k ≤ b) :
    load (memcpy m d src s k) b n = load m b n := by
  unfold load
  rw [rbytes_memcpy_disj _ _ _ _ _ _ _ h]

theorem intel_gvt_init_opregion_fail (D : GvtDefs) (L : VbtDefs) (A : Allocator)
    (s : Host) (mem v : Mem)
    (h : A.get_free_pages (A.get_order D.INTEL_GVT_OPREGION_SIZE) = NULL) :
    intel_gvt_init_opregion D L A s mem v
      = (-D.ENOMEM,
          { s with
            opregion_va := NULL
            trace := s.trace ++ [Event.log "init host opregion\n",
              Event.log "fail to get memory for virt opregion\n"] }, mem) := by
  simp only [intel_gvt_init_opregion, h, if_true, List.append_assoc, List.cons_append,
    List.nil_append, List.singleton_append]

theorem intel_gvt_init_opregion_ok (D : GvtDefs) (L : VbtDefs) (A : Allocator)
    (s : Host) (mem v : Mem)
    (h : A.get_free_pages (A.get_order D.INTEL_GVT_OPREGION_SIZE) ≠ NULL) :
    intel_gvt_init_opregion D L A s mem v
      = (0,
          { s with
            opregion_va := A.get_free_pages (A.get_order D.INTEL_GVT_OPREGION_SIZE)
            trace := s.trace ++ [Event.log "init host opregion\n"] },
          memcpy
            (store
              (store
                (memcpy
                  (memset mem (A.get_free_pages (A.get_order D.INTEL_GVT_OPREGION_SIZE)) 0
                    (D.PAGE_SIZE <<< A.get_order D.INTEL_GVT_OPREGION_SIZE))
                  (A.get_free_pages (A.get_order D.INTEL_GVT_OPREGION_SIZE)
                    + opregion_header_signature.off)
                  (strlit OPREGION_SIGNATURE) 0 (sizeof_strlit OPREGION_SIGNATURE))
                (A.get_free_pages (A.get_order D.INTEL_GVT_OPREGION_SIZE)
                  + opregion_header_mboxes.off)
                opregion_header_mboxes.size MBOX_VBT)
              (A.get_free_pages (A.get_order D.INTEL_GVT_OPREGION_SIZE)
                + D.INTEL_GVT_OPREGION_CLID) 1 0x3)
            (A.get_free_pages (A.get_order D.INTEL_GVT_OPREGION_SIZE)
              + D.INTEL_GVT_OPREGION_VBT_OFFSET)
            (virt_vbt_generation L v) 0 (vbt.sizeof L)) := by
  simp only [intel_gvt_init_opregion, if_neg h]

theorem strlit_signature_bytes :
    rbytes (strlit OPREGION_SIGNATURE) 0 (sizeof_strlit OPREGION_SIGNATURE)
      = str_bytes OPREGION_SIGNATURE ++ [0] := by
  decide

/-- Claim C12. `intel_gvt_init_opregion` returns `-ENOMEM` exactly when the
page allocation fails, and then leaves memory untouched; otherwise it returns
0, records the buffer, and in the buffer the bytes 0..15 are the characters
of "IntelGraphicsMem", `mboxes == MBOX_VBT == 0x8` (bit 3 and no other bit),
the byte at `INTEL_GVT_OPREGION_CLID` is `0x3`, and the `sizeof(struct vbt)`
bytes at `INTEL_GVT_OPREGION_VBT_OFFSET` are the output of
`virt_vbt_generation`. -/
theorem intel_gvt_init_opregion_spec (D : GvtDefs) (L : VbtDefs) (A : Allocator) (s : Host)
    (mem v : Mem) (hE : D.ENOMEM ≠ 0) (hl : D.init_layout L) :
    ((intel_gvt_init_opregion D L A s mem v).1 = -D.ENOMEM
        ↔ A.get_free_pages (A.get_order D.INTEL_GVT_OPREGION_SIZE) = NULL)
    ∧ (A.get_free_pages (A.get_order D.INTEL_GVT_OPREGION_SIZE) = NULL →
        (intel_gvt_init_opregion D L A s mem v).2.2 = mem)
    ∧ (A.get_free_pages (A.get_order D.INTEL_GVT_OPREGION_SIZE) ≠ NULL →
        (intel_gvt_init_opregion D L A s mem v).1 = 0
        ∧ (intel_gvt_init_opregion D L A s mem v).2.1.opregion_va
            = A.get_free_pages (A.get_order D.INTEL_GVT_OPREGION_SIZE)
        ∧ rbytes (intel_gvt_init_opregion D L A s mem v).2.2
            (intel_gvt_init_opregion D L A s mem v).2.1.opregion_va 16
            = str_bytes "IntelGraphicsMem"
        ∧ rd (intel_gvt_init_opregion D L A s mem v).2.2
            (intel_gvt_init_opregion D L A s mem v).2.1.opregion_va opregion_header_mboxes
            = MBOX_VBT
        ∧ MBOX_VBT = 0x8 ∧ (∀ i, MBOX_VBT.testBit i = decide (i = 3))
        ∧ load (intel_gvt_init_opregion D L A s mem v).2.2
            ((intel_gvt_init_opregion D L A s mem v).2.1.opregion_va
              + D.INTEL_GVT_OPREGION_CLID) 1 = 0x3
        ∧ rbytes (intel_gvt_init_opregion D L A s mem v).2.2
            ((intel_gvt_init_opregion D L A s mem v).2.1.opregion_va
              + D.INTEL_GVT_OPREGION_VBT_OFFSET) (vbt.sizeof L)
            = vbt_blob L v) := by
  simp only [GvtDefs.init_layout, parts_disjoint, init_parts, List.pairwise_cons,
    List.mem_cons, List.mem_singleton, forall_eq_or_imp, forall_eq, List.not_mem_nil,
    false_imp_iff, implies_true, and_true, List.Pairwise.nil, sizeof_opregion_header] at hl
  obtain ⟨⟨hhc, hhv⟩, hcv⟩ := hl
  refine ⟨?_, ?_, ?_⟩
  · by_cases h : A.get_free_pages (A.get_order D.INTEL_GVT_OPREGION_SIZE) = NULL
    · rw [intel_gvt_init_opregion_fail D L A s mem v h]
      exact ⟨fun _ => h, fun _ => rfl⟩
    · rw [intel_gvt_init_opregion_ok D L A s mem v h]
      constructor
      · intro h0
        have : (0 : Int) = -D.ENOMEM := h0
        omega
      · intro h1; exact absurd h1 h
  · intro h
    rw [intel_gvt_init_opregion_fail D L A s mem v h]
  · intro h
    rw [intel_gvt_init_opregion_ok D L A s mem v h]
    refine ⟨rfl, rfl, ?_, ?_, by decide, ?_, ?_, ?_⟩
    · dsimp only
      rw [rbytes_memcpy_disj _ _ _ _ _ _ _ (by omega),
        rbytes_store_disj _ _ _ _ _ _ (by omega),
        rbytes_store_disj _ _ _ _ _ _ (by
          simp only [opregion_header_mboxes]; omega)]
      have h17 := rbytes_memcpy_same
        (memset mem (A.get_free_pages (A.get_order D.INTEL_GVT_OPREGION_SIZE)) 0
          (D.PAGE_SIZE <<< A.get_order D.INTEL_GVT_OPREGION_SIZE))
        (A.get_free_pages (A.get_order D.INTEL_GVT_OPREGION_SIZE)
          + opregion_header_signature.off)
        (strlit OPREGION_SIGNATURE) 0 (sizeof_strlit OPREGION_SIGNATURE)
      rw [strlit_signature_bytes] at h17
      have h16 := congrArg (List.take 16) h17
      rw [rbytes_take _ _ _ 16 (by decide)] at h16
      simp only [opregion_header_signature, Nat.add_zero] at h16 ⊢
      rw [h16]
      decide
    · dsimp only [rd]
      rw [load_memcpy_disj _ _ _ _ _ _ _ (by
          simp only [opregion_header_mboxes]; omega),
        load_store_disj _ _ _ _ _ _ (by
          simp only [opregion_header_mboxes]; omega),
        load_store_same]
      decide
    · intro i
      have h8 : MBOX_VBT = 2 ^ 3 := by decide
      rw [h8, Nat.testBit_two_pow]
      by_cases h3 : i = 3
      · subst h3; rfl
      · simp [h3, eq_comm]
    · dsimp only
      rw [load_memcpy_disj _ _ _ _ _ _ _ (by omega), load_store_same]
      rfl
    · dsimp only
      rw [rbytes_memcpy_same]
      rfl

/-- Witness for C12: host initialisation with the sample allocator, and with
an allocator that fails. -/
theorem intel_gvt_init_opregion_spec_witness :
    (intel_gvt_init_opregion gvt_defs vbt198 sample_alloc sample_host_fresh
        (fun _ => 0x77) (fun _ => 0x55)).1 = 0
    ∧ rbytes (intel_gvt_init_opregion gvt_defs vbt198 sample_alloc sample_host_fresh
        (fun _ => 0x77) (fun _ => 0x55)).2.2 0x20000 16
        = [73, 110, 116, 101, 108, 71, 114, 97, 112, 104, 105, 99, 115, 77, 101, 109]
    ∧ load (intel_gvt_init_opregion gvt_defs vbt198 sample_alloc sample_host_fresh
        (fun _ => 0x77) (fun _ => 0x55)).2.2 (0x20000 + 0x1AC) 1 = 3
    ∧ (intel_gvt_init_opregion gvt_defs vbt198 sample_alloc_fail sample_host_fresh
        (fun _ => 0x77) (fun _ => 0x55)).1 = -12 :=
  ⟨((intel_gvt_init_opregion_spec gvt_defs vbt198 sample_alloc sample_host_fresh
      (fun _ => 0x77) (fun _ => 0x55) (by decide) (by decide)).2.2 (by decide)).1,
   ((intel_gvt_init_opregion_spec gvt_defs vbt198 sample_alloc sample_host_fresh
      (fun _ => 0x77) (fun _ => 0x55) (by decide) (by decide)).2.2 (by decide)).2.2.1,
   ((intel_gvt_init_opregion_spec gvt_defs vbt198 sample_alloc sample_host_fresh
      (fun _ => 0x77) (fun _ => 0x55) (by decide) (by decide)).2.2 (by decide)).2.2.2.2.2.2.1,
   (intel_gvt_init_opregion_spec gvt_defs vbt198 sample_alloc_fail sample_host_fresh
      (fun _ => 0x77) (fun _ => 0x55) (by decide) (by decide)).1.2 rfl⟩

theorem strlit_signature_nul :
    (rbytes (strlit OPREGION_SIGNATURE) 0 (sizeof_strlit OPREGION_SIGNATURE)).getD 16 0 = 0 := by
  decide

/-- After a successful `intel_gvt_init_opregion`, a byte of the zeroed pages
that lies behind the 16 signature characters and outside `mboxes`, the LID
byte and the VBT area is zero. -/
theorem intel_gvt_init_opregion_byte_zero (D : GvtDefs) (L : VbtDefs) (A : Allocator)
    (s : Host) (mem v : Mem)
    (h : A.get_free_pages (A.get_order D.INTEL_GVT_OPREGION_SIZE) ≠ NULL) (i : Nat)
    (hz : i < D.PAGE_SIZE <<< A.get_order D.INTEL_GVT_OPREGION_SIZE)
    (hsig : 16 ≤ i)
    (hmb : i < opregion_header_mboxes.off
      ∨ opregion_header_mboxes.off + opregion_header_mboxes.size ≤ i)
    (hclid : i ≠ D.INTEL_GVT_OPREGION_CLID)
    (hvbt : i < D.INTEL_GVT_OPREGION_VBT_OFFSET
      ∨ D.INTEL_GVT_OPREGION_VBT_OFFSET + vbt.sizeof L ≤ i) :
    (intel_gvt_init_opregion D L A s mem v).2.2
      (A.get_free_pages (A.get_order D.INTEL_GVT_OPREGION_SIZE) + i) = 0 := by
  rw [intel_gvt_init_opregion_ok D L A s mem v h]
  dsimp only
  rw [memcpy_outside _ _ _ _ _ _ (by omega), store_outside _ _ _ _ _ (by omega),
    store_outside _ _ _ _ _ (by omega)]
  by_cases h16 : i = 16
  · subst h16
    unfold memcpy
    have := wbytes_inside
      (memset mem (A.get_free_pages (A.get_order D.INTEL_GVT_OPREGION_SIZE)) 0
        (D.PAGE_SIZE <<< A.get_order D.INTEL_GVT_OPREGION_SIZE))
      (A.get_free_pages (A.get_order D.INTEL_GVT_OPREGION_SIZE)
        + opregion_header_signature.off)
      (rbytes (strlit OPREGION_SIGNATURE) 0 (sizeof_strlit OPREGION_SIGNATURE)) 16
      (by rw [rbytes_length]; decide)
    simp only [opregion_header_signature, Nat.add_zero] at this ⊢
    rw [this]
    exact strlit_signature_nul
  · rw [memcpy_outside _ _ _ _ _ _ (by
      have : sizeof_strlit OPREGION_SIGNATURE = 17 := by decide
      simp only [opregion_header_signature, this]; omega)]
    rw [memset_inside _ _ _ _ _ (by omega) (by omega)]

/-- Claim C20. The writes of the host initialisation stay inside their
targets and do not collide. (i) `strcpy` of "BIOS_DATA_BLOCK" writes 16 bytes,
15 characters and NUL, which fit `bdb_header.signature` and end before
`bdb_header.version`, whose value 198 is intact in the blob. (ii) `memcpy` of
`OPREGION_SIGNATURE` with length `sizeof(OPREGION_SIGNATURE) == 17` writes the
16 characters and one NUL into the first byte of `opregion_header.size`, and
`size` reads 0. (iii) With the header, the LID byte, the VBT area and the SCIC
and PARM registers lying in the `INTEL_GVT_OPREGION_SIZE`-byte buffer without
overlap, after initialisation `SCIC == 0`, `PARM == 0` and every byte of the
buffer outside the signature, `mboxes`, the LID byte and the VBT area is
zero. -/
theorem intel_gvt_init_opregion_writes (D : GvtDefs) (L : VbtDefs) (A : Allocator)
    (s : Host) (mem v : Mem) (hW : L.WF) (hl : D.opregion_layout L) (hc : A.covers D)
    (h : A.get_free_pages (A.get_order D.INTEL_GVT_OPREGION_SIZE) ≠ NULL) :
    -- (i)
    (("BIOS_DATA_BLOCK".length = 15 ∧ sizeof_strlit "BIOS_DATA_BLOCK" = 16)
      ∧ (∀ (m : Mem) (a i : Nat), i < a ∨ a + 16 ≤ i →
          strcpy m a "BIOS_DATA_BLOCK" i = m i)
      ∧ (∀ (m : Mem) (a : Nat),
          rbytes (strcpy m a "BIOS_DATA_BLOCK") a 16 = str_bytes "BIOS_DATA_BLOCK" ++ [0])
      ∧ L.bdb_header_signature.off + 16
          ≤ L.bdb_header_signature.off + L.bdb_header_signature.size
      ∧ L.bdb_header_signature.off + 16 ≤ L.bdb_header_version.off
      ∧ rd (virt_vbt_generation L v) (vbt.bdb_header L) L.bdb_header_version = 198)
    -- (ii)
    ∧ (sizeof_strlit OPREGION_SIGNATURE = 17
      ∧ opregion_header_signature.off + 17 = opregion_header_size.off + 1
      ∧ rbytes (intel_gvt_init_opregion D L A s mem v).2.2
          (A.get_free_pages (A.get_order D.INTEL_GVT_OPREGION_SIZE)) 17
          = str_bytes OPREGION_SIGNATURE ++ [0]
      ∧ rd (intel_gvt_init_opregion D L A s mem v).2.2
          (A.get_free_pages (A.get_order D.INTEL_GVT_OPREGION_SIZE))
          opregion_header_size = 0)
    -- (iii)
    ∧ (load (intel_gvt_init_opregion D L A s mem v).2.2
          (A.get_free_pages (A.get_order D.INTEL_GVT_OPREGION_SIZE)
            + D.INTEL_GVT_OPREGION_SCIC) 4 = 0
      ∧ load (intel_gvt_init_opregion D L A s mem v).2.2
          (A.get_free_pages (A.get_order D.INTEL_GVT_OPREGION_SIZE)
            + D.INTEL_GVT_OPREGION_PARM) 4 = 0
      ∧ ∀ i, i < D.INTEL_GVT_OPREGION_SIZE →
          opregion_header_signature.off + opregion_header_signature.size ≤ i →
          (i < opregion_header_mboxes.off
            ∨ opregion_header_mboxes.off + opregion_header_mboxes.size ≤ i) →
          i ≠ D.INTEL_GVT_OPREGION_CLID →
          (i < D.INTEL_GVT_OPREGION_VBT_OFFSET
            ∨ D.INTEL_GVT_OPREGION_VBT_OFFSET + vbt.sizeof L ≤ i) →
          (intel_gvt_init_opregion D L A s mem v).2.2
            (A.get_free_pages (A.get_order D.INTEL_GVT_OPREGION_SIZE) + i) = 0) := by
  simp only [GvtDefs.opregion_layout, parts_disjoint, parts_within, init_parts,
    List.cons_append, List.nil_append, List.pairwise_cons, List.mem_cons,
    List.mem_singleton, forall_eq_or_imp, forall_eq, List.not_mem_nil, false_imp_iff,
    implies_true, and_true, List.Pairwise.nil, sizeof_opregion_header] at hl
  obtain ⟨⟨⟨hhc, hhv, hhs, hhp⟩, ⟨hcv, hcs, hcp⟩, ⟨hvs, hvp⟩, hsp⟩,
    hwh, hwc, hwv, hws, hwp⟩ := hl
  unfold Allocator.covers at hc
  have byte := intel_gvt_init_opregion_byte_zero D L A s mem v h
  refine ⟨⟨by decide, ?_, ?_, ?_, ?_, ?_⟩, ⟨by decide, by decide, ?_, ?_⟩, ?_, ?_, ?_⟩
  · intro m a i hi
    exact strcpy_outside m a _ i (by
      have : "BIOS_DATA_BLOCK".length = 15 := by decide
      rw [this]; exact hi)
  · intro m a
    unfold strcpy
    have := rbytes_wbytes_same m a ("BIOS_DATA_BLOCK".toList.map Char.toNat ++ [0])
    have hlen : (List.map Char.toNat "BIOS_DATA_BLOCK".toList ++ [0]).length = 16 := by
      decide
    rw [hlen] at this
    rw [this]
    decide
  · have := hW.2.1.1
    omega
  · have h1 := hW.2.1.1
    have h2 := hW.2.1.2.1
    unfold Field.before at h2
    omega
  · have F := virt_vbt_generation_fields L hW v
    simp only [vbt_fields, List.forall_mem_cons, List.not_mem_nil, false_imp_iff,
      implies_true, and_true] at F
    obtain ⟨-, -, -, -, -, -, -, -, fv, -⟩ := F
    exact fv
  · rw [intel_gvt_init_opregion_ok D L A s mem v h]
    dsimp only
    rw [rbytes_memcpy_disj _ _ _ _ _ _ _ (by omega),
      rbytes_store_disj _ _ _ _ _ _ (by omega),
      rbytes_store_disj _ _ _ _ _ _ (by simp only [opregion_header_mboxes]; omega)]
    have h17 := rbytes_memcpy_same
      (memset mem (A.get_free_pages (A.get_order D.INTEL_GVT_OPREGION_SIZE)) 0
        (D.PAGE_SIZE <<< A.get_order D.INTEL_GVT_OPREGION_SIZE))
      (A.get_free_pages (A.get_order D.INTEL_GVT_OPREGION_SIZE)
        + opregion_header_signature.off)
      (strlit OPREGION_SIGNATURE) 0 (sizeof_strlit OPREGION_SIGNATURE)
    rw [strlit_signature_bytes] at h17
    simp only [opregion_header_signature, Nat.add_zero] at h17 ⊢
    exact h17
  · unfold rd
    apply load_eq_zero
    intro i h1 h2
    obtain ⟨k, rfl⟩ : ∃ k, i = A.get_free_pages (A.get_order D.INTEL_GVT_OPREGION_SIZE) + k :=
      ⟨i - A.get_free_pages (A.get_order D.INTEL_GVT_OPREGION_SIZE), by omega⟩
    simp only [opregion_header_size] at h1 h2
    exact byte k (by omega) (by omega) (by simp only [opregion_header_mboxes]; omega)
      (by omega) (by omega)
  · apply load_eq_zero
    intro i h1 h2
    obtain ⟨k, rfl⟩ : ∃ k, i = A.get_free_pages (A.get_order D.INTEL_GVT_OPREGION_SIZE) + k :=
      ⟨i - A.get_free_pages (A.get_order D.INTEL_GVT_OPREGION_SIZE), by omega⟩
    clear hhp hcp hvp hsp
    exact byte k (by omega) (by omega) (by simp only [opregion_header_mboxes]; omega)
      (by omega) (by omega)
  · apply load_eq_zero
    intro i h1 h2
    obtain ⟨k, rfl⟩ : ∃ k, i = A.get_free_pages (A.get_order D.INTEL_GVT_OPREGION_SIZE) + k :=
      ⟨i - A.get_free_pages (A.get_order D.INTEL_GVT_OPREGION_SIZE), by omega⟩
    clear hhs hcs hvs hsp
    exact byte k (by omega) (by omega) (by simp only [opregion_header_mboxes]; omega)
      (by omega) (by omega)
  · intro i hi hsig hmb hclid hvbt
    exact byte i (by omega) (by simp only [opregion_header_signature] at hsig; omega) hmb
      hclid hvbt

/-- Witness for C20: after host initialisation with the sample allocator,
`header.size`, `SCIC` and `PARM` read 0 and the byte at offset `0x300` is
zero, although memory was filled with `0x77` before. -/
theorem intel_gvt_init_opregion_writes_witness :
    rd (intel_gvt_init_opregion gvt_defs vbt198 sample_alloc sample_host_fresh
        (fun _ => 0x77) (fun _ => 0x55)).2.2 0x20000 opregion_header_size = 0
    ∧ load (intel_gvt_init_opregion gvt_defs vbt198 sample_alloc sample_host_fresh
        (fun _ => 0x77) (fun _ => 0x55)).2.2 (0x20000 + 0x200) 4 = 0
    ∧ load (intel_gvt_init_opregion gvt_defs vbt198 sample_alloc sample_host_fresh
        (fun _ => 0x77) (fun _ => 0x55)).2.2 (0x20000 + 0x204) 4 = 0
    ∧ (intel_gvt_init_opregion gvt_defs vbt198 sample_alloc sample_host_fresh
        (fun _ => 0x77) (fun _ => 0x55)).2.2 (0x20000 + 0x300) = 0 :=
  ⟨(intel_gvt_init_opregion_writes gvt_defs vbt198 sample_alloc sample_host_fresh
      (fun _ => 0x77) (fun _ => 0x55) (by decide) (by decide) (by decide)
      (by decide)).2.1.2.2.2,
   (intel_gvt_init_opregion_writes gvt_defs vbt198 sample_alloc sample_host_fresh
      (fun _ => 0x77) (fun _ => 0x55) (by decide) (by decide) (by decide)
      (by decide)).2.2.1,
   (intel_gvt_init_opregion_writes gvt_defs vbt198 sample_alloc sample_host_fresh
      (fun _ => 0x77) (fun _ => 0x55) (by decide) (by decide) (by decide)
      (by decide)).2.2.2.1,
   (intel_gvt_init_opregion_writes gvt_defs vbt198 sample_alloc sample_host_fresh
      (fun _ => 0x77) (fun _ => 0x55) (by decide) (by decide) (by decide)
      (by decide)).2.2.2.2 0x300 (by decide) (by decide) (by decide) (by decide)
      (by decide)⟩

end Opregion
